import Mathlib

/-! # JTimer: timer configuration for the ATmega328P

A shallow embedding of `J_Timer.h` / `J_Timer.c`.

* The timer registers are an explicit record `Regs` that every operation
  takes and returns.
* The variadic argument list of `ConfigureTimer` is a `List Int`; `va_arg`
  takes the next argument, and has no result once the list is exhausted
  (reading a missing argument is undefined in C).
* The `double` arithmetic of the compare-value formula rounds the result of
  every operation with a rounding function `fl`, the first argument of
  `ConfigureTimer`. `fl32` is binary32 rounding, the `double` of avr-gcc; the
  identity is exact arithmetic. The general theorems hold for every rounding
  with relative error at most `2^-24` (`AccurateRounding`), which covers
  binary32, binary64 and exact arithmetic.
* The delay thresholds are compared exactly, in `ℚ`: no threshold lies within
  0.015 of an integer, and `thresholds_robust` shows that a relative
  perturbation of up to `2^-21` classifies every integer delay alike.
* The `(int)` cast truncates toward zero. `int` values are unbounded integers;
  a store into an 8-bit or 16-bit register keeps the low bits.
* The diagnostic output on the USART has no influence on registers or return
  codes and is left out.
-/

set_option linter.unusedVariables false

namespace JTimer

/-! ## Constants of `J_Timer.h` -/

/-- Clock frequency in Hz (`#define F_CPU 16000000L`). -/
def F_CPU : ℚ := 16000000

def TIMER_0 : Int := 0x01
def TIMER_1 : Int := 0x02
def TIMER_2 : Int := 0x03

def DELAY_MODE : Int := 0x01
def CTC_MODE : Int := 0x02
def PHASE_CORRECT_PWM_MODE : Int := 0x03
def PHASE_CORRECT_PWM_DC_MODE : Int := 0x04

def TIMER_0_MAX_DELAY_TIME_PS_1 : ℚ := (1000 / F_CPU) * 0xFF
def TIMER_0_MAX_DELAY_TIME_PS_8 : ℚ := (1000 / F_CPU) * 0xFF * 8
def TIMER_0_MAX_DELAY_TIME_PS_64 : ℚ := (1000 / F_CPU) * 0xFF * 64
def TIMER_0_MAX_DELAY_TIME_PS_256 : ℚ := (1000 / F_CPU) * 0xFF * 256
def TIMER_0_MAX_DELAY_TIME_PS_1024 : ℚ := (1000 / F_CPU) * 0xFF * 1024

def TIMER_1_MAX_DELAY_TIME_PS_1 : ℚ := (1000 / F_CPU) * 0xFFFF
def TIMER_1_MAX_DELAY_TIME_PS_8 : ℚ := (1000 / F_CPU) * 0xFFFF * 8
def TIMER_1_MAX_DELAY_TIME_PS_64 : ℚ := (1000 / F_CPU) * 0xFFFF * 64
def TIMER_1_MAX_DELAY_TIME_PS_256 : ℚ := (1000 / F_CPU) * 0xFFFF * 256
def TIMER_1_MAX_DELAY_TIME_PS_1024 : ℚ := (1000 / F_CPU) * 0xFFFF * 1024

def TIMER_2_MAX_DELAY_TIME_PS_1 : ℚ := (1000 / F_CPU) * 0xFF
def TIMER_2_MAX_DELAY_TIME_PS_8 : ℚ := (1000 / F_CPU) * 0xFF * 8
def TIMER_2_MAX_DELAY_TIME_PS_64 : ℚ := (1000 / F_CPU) * 0xFF * 64
def TIMER_2_MAX_DELAY_TIME_PS_256 : ℚ := (1000 / F_CPU) * 0xFF * 256
def TIMER_2_MAX_DELAY_TIME_PS_1024 : ℚ := (1000 / F_CPU) * 0xFF * 1024

def ERR_INVALID_MODE : Int := -100
def ERR_INVALID_TIMER_RANGE : Int := -101
def ERR_INVALID_DELAY_TIME : Int := -102
def ERR_INVALID_TIMER : Int := -103

/-! ## Device header (`avr/io.h`, ATmega328P)

The bit numbers below come from the device header, which is not part of the
repository sources; they are the ATmega328P values. -/

/-- Modelled from the spec: the bit-value helper of the device header,
`_BV(bit) = 1 << bit`. -/
def _BV (bit : Nat) : Nat := 1 <<< bit

/-- Modelled from the spec: clock-select bit numbers of `TCCR0B`; the spec
places `CSn0` at bit 0, `CSn1` at bit 1 and `CSn2` at bit 2 for every unit. -/
def CS00 : Nat := 0
/-- Modelled from the spec: `CS01` is bit 1 of `TCCR0B`. -/
def CS01 : Nat := 1
/-- Modelled from the spec: `CS02` is bit 2 of `TCCR0B`. -/
def CS02 : Nat := 2
/-- Modelled from the spec: `CS10` is bit 0 of `TCCR1B`. -/
def CS10 : Nat := 0
/-- Modelled from the spec: `CS11` is bit 1 of `TCCR1B`. -/
def CS11 : Nat := 1
/-- Modelled from the spec: `CS12` is bit 2 of `TCCR1B`. -/
def CS12 : Nat := 2
/-- Modelled from the spec: `CS20` is bit 0 of `TCCR2B`. -/
def CS20 : Nat := 0
/-- Modelled from the spec: `CS21` is bit 1 of `TCCR2B`. -/
def CS21 : Nat := 1
/-- Modelled from the spec: `CS22` is bit 2 of `TCCR2B`. -/
def CS22 : Nat := 2

/-- Modelled from the spec: waveform-generation bit `WGM01` of `TCCR0A`
(bit 1 in the ATmega328P device header). -/
def WGM01 : Nat := 1
/-- Modelled from the spec: waveform-generation bit `WGM12` of `TCCR1B`
(bit 3 in the ATmega328P device header). -/
def WGM12 : Nat := 3
/-- Modelled from the spec: waveform-generation bit `WGM21` of `TCCR2A`
(bit 1 in the ATmega328P device header). -/
def WGM21 : Nat := 1
/-- Modelled from the spec: compare-match-A interrupt enable bit `OCIE0A` of
`TIMSK0` (bit 1 in the ATmega328P device header). -/
def OCIE0A : Nat := 1
/-- Modelled from the spec: compare-match-A interrupt enable bit `OCIE1A` of
`TIMSK1` (bit 1 in the ATmega328P device header). -/
def OCIE1A : Nat := 1
/-- Modelled from the spec: compare-match-A interrupt enable bit `OCIE2A` of
`TIMSK2` (bit 1 in the ATmega328P device header). -/
def OCIE2A : Nat := 1

/-! ## Register file -/

/-- The registers of the three timer units that the library reads or writes. -/
structure Regs where
  TCCR0A : Nat
  TCCR0B : Nat
  TIMSK0 : Nat
  OCR0A : Nat
  TCCR1A : Nat
  TCCR1B : Nat
  TIMSK1 : Nat
  OCR1A : Nat
  TCCR2A : Nat
  TCCR2B : Nat
  TIMSK2 : Nat
  OCR2A : Nat
deriving DecidableEq, Repr

/-- Storing an integer into an 8-bit register keeps its low 8 bits. -/
def store8 (v : Int) : Nat := (v % 256).toNat

/-- Storing an integer into a 16-bit register keeps its low 16 bits. -/
def store16 (v : Int) : Nat := (v % 65536).toNat

/-! ## `ResetTimer` -/

/-- `int ResetTimer(int timer)`: the return code and the registers afterwards. -/
def ResetTimer (timer : Int) (s : Regs) : Int × Regs :=
  if timer = TIMER_0 then
    (0, { s with TCCR0A := 0, TCCR0B := 0, TIMSK0 := 0 })
  else if timer = TIMER_1 then
    (0, { s with TCCR1A := 0, TCCR1B := 0, TIMSK1 := 0 })
  else if timer = TIMER_2 then
    (0, { s with TCCR2A := 0, TCCR2B := 0, TIMSK2 := 0 })
  else
    (ERR_INVALID_TIMER, s)

/-! ## `ConfigureTimer` -/

/-- The C conversion `(int)x` of a real number: truncation toward zero. -/
def cTrunc (q : ℚ) : Int := Int.tdiv q.num q.den

/-- Rounding to the nearest integer, a tie going to the even neighbour. -/
def roundEven (t : ℚ) : Int :=
  if t - ⌊t⌋ < 1 / 2 then ⌊t⌋
  else if 1 / 2 < t - ⌊t⌋ then ⌊t⌋ + 1
  else if ⌊t⌋ % 2 = 0 then ⌊t⌋ else ⌊t⌋ + 1

/-- Rounding of a real number to IEEE 754 binary32 (24-bit significand, round
to nearest, ties to even), the format of `double` under avr-gcc. The exponent
range is not modelled: every value of the compare-value formula lies far inside
the normal range. -/
def fl32 (x : ℚ) : ℚ :=
  if x = 0 then 0
  else (roundEven (x / 2 ^ (Int.log 2 |x| - 23)) : ℚ) * 2 ^ (Int.log 2 |x| - 23)

/-- The `double` value of the right-hand side of every compare-register
assignment, `((double)delayTime / ((1000.0 / F_CPU) * P * MAX)) * MAX`, for the
prescaler factor `P` and the counter maximum `MAX` of the branch. Each of the
five operations rounds its result with `fl`; the conversions of `delayTime`,
`F_CPU`, `P` and `MAX` to `double` are exact. -/
def compareDouble (fl : ℚ → ℚ) (delayTime : Int) (P MAX : Nat) : ℚ :=
  fl (fl ((delayTime : ℚ) / fl (fl (fl (1000 / F_CPU) * (P : ℚ)) * (MAX : ℚ))) * (MAX : ℚ))

/-- The right-hand side of every compare-register assignment,
`(int)(((double)delayTime / ((1000.0 / F_CPU) * P * MAX)) * MAX)`. -/
def compareValue (fl : ℚ → ℚ) (delayTime : Int) (P MAX : Nat) : Int :=
  cTrunc (compareDouble fl delayTime P MAX)

/-- What a call of `ConfigureTimer` leaves behind: its return code, the
registers, and (for reference in the theorems) the prescaler factor that
occurs in the compare-value formula of the branch taken, if a compare value
was written. -/
structure Outcome where
  ret : Int
  regs : Regs
  prescaler : Option Nat
deriving DecidableEq, Repr

/-- The next variadic argument and the remaining ones. -/
def va_arg (ap : List Int) : Option (Int × List Int) :=
  match ap with
  | [] => none
  | x :: rest => some (x, rest)

/-- `int ConfigureTimer(int numArgs, ...)`; `args` are the variadic arguments
(timer, mode, then the parameters of the mode) and `fl` is the rounding of the
`double` operations in the compare-value formula. -/
def ConfigureTimer (fl : ℚ → ℚ) (numArgs : Int) (args : List Int) (s : Regs) : Option Outcome :=
  match va_arg args with
  | none => none
  | some (timer, ap) =>
  match va_arg ap with
  | none => none
  | some (mode, ap) =>
  if mode = DELAY_MODE then
    match va_arg ap with
    | none => none
    | some (delayTime, _) =>
    if delayTime ≤ 0 then
      some ⟨ERR_INVALID_DELAY_TIME, s, none⟩
    else if timer = TIMER_0 then
      let s := (ResetTimer TIMER_0 s).2
      let s := { s with TCCR0A := _BV WGM01 }
      let s := { s with TIMSK0 := _BV OCIE0A }
      if (delayTime : ℚ) ≤ TIMER_0_MAX_DELAY_TIME_PS_1 then
        some ⟨ERR_INVALID_DELAY_TIME, (ResetTimer TIMER_0 s).2, none⟩
      else if (delayTime : ℚ) ≤ TIMER_0_MAX_DELAY_TIME_PS_8 then
        some ⟨ERR_INVALID_DELAY_TIME, (ResetTimer TIMER_0 s).2, none⟩
      else if (delayTime : ℚ) ≤ TIMER_0_MAX_DELAY_TIME_PS_64 then
        let s := { s with TCCR0B := s.TCCR0B ||| (_BV CS00 ||| _BV CS01) }
        let s := { s with OCR0A := store8 (compareValue fl delayTime 64 0xFF) }
        some ⟨0, s, some 64⟩
      else if (delayTime : ℚ) ≤ TIMER_0_MAX_DELAY_TIME_PS_256 then
        let s := { s with TCCR0B := s.TCCR0B ||| _BV CS02 }
        let s := { s with OCR0A := store8 (compareValue fl delayTime 256 0xFF) }
        some ⟨0, s, some 256⟩
      else if (delayTime : ℚ) ≤ TIMER_0_MAX_DELAY_TIME_PS_1024 then
        let s := { s with TCCR0B := s.TCCR0B ||| (_BV CS00 ||| _BV CS02) }
        let s := { s with OCR0A := store8 (compareValue fl delayTime 1024 0xFF) }
        some ⟨0, s, some 1024⟩
      else
        some ⟨ERR_INVALID_DELAY_TIME, (ResetTimer TIMER_0 s).2, none⟩
    else if timer = TIMER_1 then
      let s := (ResetTimer TIMER_1 s).2
      let s := { s with TCCR1A := 0 }
      let s := { s with TCCR1B := _BV WGM12 }
      let s := { s with TIMSK1 := _BV OCIE1A }
      if (delayTime : ℚ) ≤ TIMER_1_MAX_DELAY_TIME_PS_1 then
        let s := { s with TCCR1B := s.TCCR1B ||| _BV CS10 }
        let s := { s with OCR1A := store16 (compareValue fl delayTime 1 0xFFFF) }
        some ⟨0, s, some 1⟩
      else if (delayTime : ℚ) ≤ TIMER_1_MAX_DELAY_TIME_PS_8 then
        let s := { s with TCCR1B := s.TCCR1B ||| _BV CS01 }
        let s := { s with OCR1A := store16 (compareValue fl delayTime 8 0xFFFF) }
        some ⟨0, s, some 8⟩
      else if (delayTime : ℚ) ≤ TIMER_1_MAX_DELAY_TIME_PS_64 then
        let s := { s with TCCR1B := s.TCCR1B ||| (_BV CS10 ||| _BV CS11) }
        let s := { s with OCR1A := store16 (compareValue fl delayTime 64 0xFFFF) }
        some ⟨0, s, some 64⟩
      else if (delayTime : ℚ) ≤ TIMER_1_MAX_DELAY_TIME_PS_256 then
        let s := { s with TCCR1B := s.TCCR1B ||| _BV CS12 }
        let s := { s with OCR1A := store16 (compareValue fl delayTime 256 0xFFFF) }
        some ⟨0, s, some 256⟩
      else if (delayTime : ℚ) ≤ TIMER_1_MAX_DELAY_TIME_PS_1024 then
        let s := { s with TCCR1B := s.TCCR1B ||| (_BV CS10 ||| _BV CS12) }
        let s := { s with OCR1A := store16 (compareValue fl delayTime 1024 0xFFFF) }
        some ⟨0, s, some 1024⟩
      else
        some ⟨ERR_INVALID_DELAY_TIME, (ResetTimer TIMER_1 s).2, none⟩
    else if timer = TIMER_2 then
      let s := (ResetTimer TIMER_2 s).2
      let s := { s with TCCR2A := _BV WGM21 }
      let s := { s with TIMSK2 := _BV OCIE2A }
      if (delayTime : ℚ) ≤ TIMER_2_MAX_DELAY_TIME_PS_1 then
        some ⟨ERR_INVALID_DELAY_TIME, (ResetTimer TIMER_2 s).2, none⟩
      else if (delayTime : ℚ) ≤ TIMER_2_MAX_DELAY_TIME_PS_8 then
        some ⟨ERR_INVALID_DELAY_TIME, (ResetTimer TIMER_2 s).2, none⟩
      else if (delayTime : ℚ) ≤ TIMER_2_MAX_DELAY_TIME_PS_64 then
        let s := { s with TCCR2B := s.TCCR2B ||| (_BV CS20 ||| _BV CS21) }
        let s := { s with OCR2A := store8 (compareValue fl delayTime 64 0xFF) }
        some ⟨0, s, some 64⟩
      else if (delayTime : ℚ) ≤ TIMER_2_MAX_DELAY_TIME_PS_256 then
        let s := { s with TCCR2B := s.TCCR2B ||| _BV CS22 }
        let s := { s with OCR2A := store8 (compareValue fl delayTime 256 0xFF) }
        some ⟨0, s, some 256⟩
      else if (delayTime : ℚ) ≤ TIMER_2_MAX_DELAY_TIME_PS_1024 then
        let s := { s with TCCR2B := s.TCCR2B ||| (_BV CS20 ||| _BV CS22) }
        let s := { s with OCR2A := store8 (compareValue fl delayTime 1024 0xFF) }
        some ⟨0, s, some 1024⟩
      else
        some ⟨ERR_INVALID_DELAY_TIME, (ResetTimer TIMER_2 s).2, none⟩
    else
      some ⟨ERR_INVALID_TIMER, s, none⟩
  else if mode = PHASE_CORRECT_PWM_MODE then
    some ⟨0, s, none⟩
  else
    some ⟨ERR_INVALID_MODE, s, none⟩

/-! ## `ErrorMessage` -/

/-- `char * ErrorMessage(int err)`: the text that `sprintf` leaves in the static
buffer; `%d` prints the code in decimal. -/
def ErrorMessage (err : Int) : String :=
  if err = ERR_INVALID_MODE then
    "(" ++ toString err ++ ") Invalid mode selected\n"
  else if err = ERR_INVALID_TIMER_RANGE then
    "(" ++ toString err ++ ") Timer range invalid\n"
  else if err = ERR_INVALID_DELAY_TIME then
    "(" ++ toString err ++ ") Delay time negative or too long for specified timer\n"
  else
    "(" ++ toString err ++ ") Unknown Error"

/-! ## Quantities named by the specification

These follow the wording of the specification, not the code; the theorems
compare them with what `ConfigureTimer` does. -/

/-- A rounding of `double` results whose relative error is at most `2^-24`:
binary32 and binary64 rounding to nearest, and exact arithmetic, all qualify. -/
def AccurateRounding (fl : ℚ → ℚ) : Prop := ∀ x : ℚ, |fl x - x| ≤ |x| / 2 ^ 24

/-- The largest count of a unit: 255 for the 8-bit Timer 0 and Timer 2,
65535 for the 16-bit Timer 1. -/
def counterMax (timer : Int) : Nat := if timer = TIMER_1 then 65535 else 255

/-- The longest delay, in milliseconds, a unit reaches with divisor `p` at
16 MHz: `counterMax * p / 16000`. -/
def maxDelay (timer : Int) (p : Nat) : ℚ := (counterMax timer : ℚ) * (p : ℚ) / 16000

/-- The divisors a unit may use, in ascending order: all five for Timer 1,
the three coarsest for Timer 0 and Timer 2. -/
def allowedDivisors (timer : Int) : List Nat :=
  if timer = TIMER_1 then [1, 8, 64, 256, 1024] else [64, 256, 1024]

/-- The compare value as the specification words it: the quotient
`d / maxDelay * counterMax` rounded to the nearest integer. -/
def roundedCompareValue (timer : Int) (d : Int) (p : Nat) : Int :=
  round ((d : ℚ) / maxDelay timer p * (counterMax timer : ℚ))

/-- Modelled from the spec: the divisor that the hardware derives from the
three clock-select bits of a unit (ATmega328P clock-select encoding): Timer 0 and Timer 1 use 001 = /1, 010 = /8,
011 = /64, 100 = /256, 101 = /1024; Timer 2 uses 001 = /1, 010 = /8,
011 = /32, 100 = /64, 101 = /128, 110 = /256, 111 = /1024. Any other
pattern selects no prescaled system clock. -/
def clockSelectDivisor (timer : Int) (cs : Nat) : Option Nat :=
  if timer = TIMER_2 then
    if cs = 1 then some 1
    else if cs = 2 then some 8
    else if cs = 3 then some 32
    else if cs = 4 then some 64
    else if cs = 5 then some 128
    else if cs = 6 then some 256
    else if cs = 7 then some 1024
    else none
  else
    if cs = 1 then some 1
    else if cs = 2 then some 8
    else if cs = 3 then some 64
    else if cs = 4 then some 256
    else if cs = 5 then some 1024
    else none

/-- The form of an error string as the specification words it:
`"(<numeric code>) <description>"`. -/
def messageForm (code : Int) (description : String) : String :=
  "(" ++ toString code ++ ") " ++ description

/-- The description `ErrorMessage` gives to a code it does not recognize. -/
def fallbackDescription : String := "Unknown Error"

/-- Control register A of a unit (`TCCRnA`). -/
def controlA (timer : Int) (r : Regs) : Nat :=
  if timer = TIMER_0 then r.TCCR0A else if timer = TIMER_1 then r.TCCR1A else r.TCCR2A

/-- Control register B of a unit (`TCCRnB`), which holds the clock-select bits. -/
def controlB (timer : Int) (r : Regs) : Nat :=
  if timer = TIMER_0 then r.TCCR0B else if timer = TIMER_1 then r.TCCR1B else r.TCCR2B

/-- Interrupt-mask register of a unit (`TIMSKn`). -/
def intMask (timer : Int) (r : Regs) : Nat :=
  if timer = TIMER_0 then r.TIMSK0 else if timer = TIMER_1 then r.TIMSK1 else r.TIMSK2

/-- Compare register A of a unit (`OCRnA`). -/
def compareReg (timer : Int) (r : Regs) : Nat :=
  if timer = TIMER_0 then r.OCR0A else if timer = TIMER_1 then r.OCR1A else r.OCR2A

/-- The three clock-select bits, bits 2..0 of a `TCCRnB` value. -/
def clockSelectBits (v : Nat) : Nat := v % 8

/-- A register file in which Timer 0 is configured and running (CTC mode,
divisor 64, compare interrupt enabled) and the other units are idle. -/
def runningTimer0 : Regs :=
  { TCCR0A := 2, TCCR0B := 3, TIMSK0 := 2, OCR0A := 250,
    TCCR1A := 0, TCCR1B := 0, TIMSK1 := 0, OCR1A := 0,
    TCCR2A := 0, TCCR2B := 0, TIMSK2 := 0, OCR2A := 0 }

/-- The register file after power-up: every register is zero. -/
def powerUp : Regs :=
  { TCCR0A := 0, TCCR0B := 0, TIMSK0 := 0, OCR0A := 0,
    TCCR1A := 0, TCCR1B := 0, TIMSK1 := 0, OCR1A := 0,
    TCCR2A := 0, TCCR2B := 0, TIMSK2 := 0, OCR2A := 0 }


/-! ## Arithmetic of the thresholds and of the compare value -/

/-- An integer is at most a rational lying in `[k, k+1)` exactly when it is at most `k`. -/
theorem int_le_rat_iff (d k : Int) (q : ℚ) (h1 : (k : ℚ) ≤ q) (h2 : q < (k : ℚ) + 1) :
    (d : ℚ) ≤ q ↔ d ≤ k := by
  constructor
  · intro h
    have h3 : (d : ℚ) < ((k + 1 : Int) : ℚ) := by push_cast; linarith
    have h4 : d < k + 1 := by exact_mod_cast h3
    omega
  · intro h
    have h3 : (d : ℚ) ≤ (k : ℚ) := by exact_mod_cast h
    linarith

theorem le_T0_PS_1 (d : Int) : (d : ℚ) ≤ TIMER_0_MAX_DELAY_TIME_PS_1 ↔ d ≤ 0 :=
  int_le_rat_iff d 0 _ (by norm_num [TIMER_0_MAX_DELAY_TIME_PS_1, F_CPU])
    (by norm_num [TIMER_0_MAX_DELAY_TIME_PS_1, F_CPU])

theorem le_T0_PS_8 (d : Int) : (d : ℚ) ≤ TIMER_0_MAX_DELAY_TIME_PS_8 ↔ d ≤ 0 :=
  int_le_rat_iff d 0 _ (by norm_num [TIMER_0_MAX_DELAY_TIME_PS_8, F_CPU])
    (by norm_num [TIMER_0_MAX_DELAY_TIME_PS_8, F_CPU])

theorem le_T0_PS_64 (d : Int) : (d : ℚ) ≤ TIMER_0_MAX_DELAY_TIME_PS_64 ↔ d ≤ 1 :=
  int_le_rat_iff d 1 _ (by norm_num [TIMER_0_MAX_DELAY_TIME_PS_64, F_CPU])
    (by norm_num [TIMER_0_MAX_DELAY_TIME_PS_64, F_CPU])

theorem le_T0_PS_256 (d : Int) : (d : ℚ) ≤ TIMER_0_MAX_DELAY_TIME_PS_256 ↔ d ≤ 4 :=
  int_le_rat_iff d 4 _ (by norm_num [TIMER_0_MAX_DELAY_TIME_PS_256, F_CPU])
    (by norm_num [TIMER_0_MAX_DELAY_TIME_PS_256, F_CPU])

theorem le_T0_PS_1024 (d : Int) : (d : ℚ) ≤ TIMER_0_MAX_DELAY_TIME_PS_1024 ↔ d ≤ 16 :=
  int_le_rat_iff d 16 _ (by norm_num [TIMER_0_MAX_DELAY_TIME_PS_1024, F_CPU])
    (by norm_num [TIMER_0_MAX_DELAY_TIME_PS_1024, F_CPU])

theorem le_T1_PS_1 (d : Int) : (d : ℚ) ≤ TIMER_1_MAX_DELAY_TIME_PS_1 ↔ d ≤ 4 :=
  int_le_rat_iff d 4 _ (by norm_num [TIMER_1_MAX_DELAY_TIME_PS_1, F_CPU])
    (by norm_num [TIMER_1_MAX_DELAY_TIME_PS_1, F_CPU])

theorem le_T1_PS_8 (d : Int) : (d : ℚ) ≤ TIMER_1_MAX_DELAY_TIME_PS_8 ↔ d ≤ 32 :=
  int_le_rat_iff d 32 _ (by norm_num [TIMER_1_MAX_DELAY_TIME_PS_8, F_CPU])
    (by norm_num [TIMER_1_MAX_DELAY_TIME_PS_8, F_CPU])

theorem le_T1_PS_64 (d : Int) : (d : ℚ) ≤ TIMER_1_MAX_DELAY_TIME_PS_64 ↔ d ≤ 262 :=
  int_le_rat_iff d 262 _ (by norm_num [TIMER_1_MAX_DELAY_TIME_PS_64, F_CPU])
    (by norm_num [TIMER_1_MAX_DELAY_TIME_PS_64, F_CPU])

theorem le_T1_PS_256 (d : Int) : (d : ℚ) ≤ TIMER_1_MAX_DELAY_TIME_PS_256 ↔ d ≤ 1048 :=
  int_le_rat_iff d 1048 _ (by norm_num [TIMER_1_MAX_DELAY_TIME_PS_256, F_CPU])
    (by norm_num [TIMER_1_MAX_DELAY_TIME_PS_256, F_CPU])

theorem le_T1_PS_1024 (d : Int) : (d : ℚ) ≤ TIMER_1_MAX_DELAY_TIME_PS_1024 ↔ d ≤ 4194 :=
  int_le_rat_iff d 4194 _ (by norm_num [TIMER_1_MAX_DELAY_TIME_PS_1024, F_CPU])
    (by norm_num [TIMER_1_MAX_DELAY_TIME_PS_1024, F_CPU])

theorem le_T2_PS_1 (d : Int) : (d : ℚ) ≤ TIMER_2_MAX_DELAY_TIME_PS_1 ↔ d ≤ 0 :=
  int_le_rat_iff d 0 _ (by norm_num [TIMER_2_MAX_DELAY_TIME_PS_1, F_CPU])
    (by norm_num [TIMER_2_MAX_DELAY_TIME_PS_1, F_CPU])

theorem le_T2_PS_8 (d : Int) : (d : ℚ) ≤ TIMER_2_MAX_DELAY_TIME_PS_8 ↔ d ≤ 0 :=
  int_le_rat_iff d 0 _ (by norm_num [TIMER_2_MAX_DELAY_TIME_PS_8, F_CPU])
    (by norm_num [TIMER_2_MAX_DELAY_TIME_PS_8, F_CPU])

theorem le_T2_PS_64 (d : Int) : (d : ℚ) ≤ TIMER_2_MAX_DELAY_TIME_PS_64 ↔ d ≤ 1 :=
  int_le_rat_iff d 1 _ (by norm_num [TIMER_2_MAX_DELAY_TIME_PS_64, F_CPU])
    (by norm_num [TIMER_2_MAX_DELAY_TIME_PS_64, F_CPU])

theorem le_T2_PS_256 (d : Int) : (d : ℚ) ≤ TIMER_2_MAX_DELAY_TIME_PS_256 ↔ d ≤ 4 :=
  int_le_rat_iff d 4 _ (by norm_num [TIMER_2_MAX_DELAY_TIME_PS_256, F_CPU])
    (by norm_num [TIMER_2_MAX_DELAY_TIME_PS_256, F_CPU])

theorem le_T2_PS_1024 (d : Int) : (d : ℚ) ≤ TIMER_2_MAX_DELAY_TIME_PS_1024 ↔ d ≤ 16 :=
  int_le_rat_iff d 16 _ (by norm_num [TIMER_2_MAX_DELAY_TIME_PS_1024, F_CPU])
    (by norm_num [TIMER_2_MAX_DELAY_TIME_PS_1024, F_CPU])

/-- A threshold `T` with `k ≤ T * (1 - 2^-21)` and `T * (1 + 2^-21) < k + 1`
classifies integers like every value within relative distance `2^-21` of it. -/
theorem perturbed_threshold (T T' : ℚ) (k d : Int) (hT : 0 ≤ T)
    (h1 : (k : ℚ) ≤ T * (2097151 / 2097152)) (h2 : T * (2097153 / 2097152) < (k : ℚ) + 1)
    (hp : |T' - T| ≤ T / 2 ^ 21) : ((d : ℚ) ≤ T' ↔ (d : ℚ) ≤ T) := by
  rw [abs_le] at hp
  obtain ⟨hp1, hp2⟩ := hp
  have e1 : T * (2097151 / 2097152) = T - T / 2 ^ 21 := by norm_num; ring
  have e2 : T * (2097153 / 2097152) = T + T / 2 ^ 21 := by norm_num; ring
  rw [int_le_rat_iff d k T' (by linarith) (by linarith),
    int_le_rat_iff d k T (by linarith) (by linarith)]

/-- The exact comparison of the delay with a threshold macro gives the same
answer, for every integer delay, as the comparison with any value `T'` within
relative distance `2^-21` of the macro, in particular with the macro as
computed in binary32 or binary64 arithmetic. -/
theorem thresholds_robust (T' : ℚ) (d : Int) :
    (|T' - TIMER_0_MAX_DELAY_TIME_PS_1| ≤ TIMER_0_MAX_DELAY_TIME_PS_1 / 2 ^ 21 →
      ((d : ℚ) ≤ T' ↔ (d : ℚ) ≤ TIMER_0_MAX_DELAY_TIME_PS_1)) ∧
    (|T' - TIMER_0_MAX_DELAY_TIME_PS_8| ≤ TIMER_0_MAX_DELAY_TIME_PS_8 / 2 ^ 21 →
      ((d : ℚ) ≤ T' ↔ (d : ℚ) ≤ TIMER_0_MAX_DELAY_TIME_PS_8)) ∧
    (|T' - TIMER_0_MAX_DELAY_TIME_PS_64| ≤ TIMER_0_MAX_DELAY_TIME_PS_64 / 2 ^ 21 →
      ((d : ℚ) ≤ T' ↔ (d : ℚ) ≤ TIMER_0_MAX_DELAY_TIME_PS_64)) ∧
    (|T' - TIMER_0_MAX_DELAY_TIME_PS_256| ≤ TIMER_0_MAX_DELAY_TIME_PS_256 / 2 ^ 21 →
      ((d : ℚ) ≤ T' ↔ (d : ℚ) ≤ TIMER_0_MAX_DELAY_TIME_PS_256)) ∧
    (|T' - TIMER_0_MAX_DELAY_TIME_PS_1024| ≤ TIMER_0_MAX_DELAY_TIME_PS_1024 / 2 ^ 21 →
      ((d : ℚ) ≤ T' ↔ (d : ℚ) ≤ TIMER_0_MAX_DELAY_TIME_PS_1024)) ∧
    (|T' - TIMER_1_MAX_DELAY_TIME_PS_1| ≤ TIMER_1_MAX_DELAY_TIME_PS_1 / 2 ^ 21 →
      ((d : ℚ) ≤ T' ↔ (d : ℚ) ≤ TIMER_1_MAX_DELAY_TIME_PS_1)) ∧
    (|T' - TIMER_1_MAX_DELAY_TIME_PS_8| ≤ TIMER_1_MAX_DELAY_TIME_PS_8 / 2 ^ 21 →
      ((d : ℚ) ≤ T' ↔ (d : ℚ) ≤ TIMER_1_MAX_DELAY_TIME_PS_8)) ∧
    (|T' - TIMER_1_MAX_DELAY_TIME_PS_64| ≤ TIMER_1_MAX_DELAY_TIME_PS_64 / 2 ^ 21 →
      ((d : ℚ) ≤ T' ↔ (d : ℚ) ≤ TIMER_1_MAX_DELAY_TIME_PS_64)) ∧
    (|T' - TIMER_1_MAX_DELAY_TIME_PS_256| ≤ TIMER_1_MAX_DELAY_TIME_PS_256 / 2 ^ 21 →
      ((d : ℚ) ≤ T' ↔ (d : ℚ) ≤ TIMER_1_MAX_DELAY_TIME_PS_256)) ∧
    (|T' - TIMER_1_MAX_DELAY_TIME_PS_1024| ≤ TIMER_1_MAX_DELAY_TIME_PS_1024 / 2 ^ 21 →
      ((d : ℚ) ≤ T' ↔ (d : ℚ) ≤ TIMER_1_MAX_DELAY_TIME_PS_1024)) ∧
    (|T' - TIMER_2_MAX_DELAY_TIME_PS_1| ≤ TIMER_2_MAX_DELAY_TIME_PS_1 / 2 ^ 21 →
      ((d : ℚ) ≤ T' ↔ (d : ℚ) ≤ TIMER_2_MAX_DELAY_TIME_PS_1)) ∧
    (|T' - TIMER_2_MAX_DELAY_TIME_PS_8| ≤ TIMER_2_MAX_DELAY_TIME_PS_8 / 2 ^ 21 →
      ((d : ℚ) ≤ T' ↔ (d : ℚ) ≤ TIMER_2_MAX_DELAY_TIME_PS_8)) ∧
    (|T' - TIMER_2_MAX_DELAY_TIME_PS_64| ≤ TIMER_2_MAX_DELAY_TIME_PS_64 / 2 ^ 21 →
      ((d : ℚ) ≤ T' ↔ (d : ℚ) ≤ TIMER_2_MAX_DELAY_TIME_PS_64)) ∧
    (|T' - TIMER_2_MAX_DELAY_TIME_PS_256| ≤ TIMER_2_MAX_DELAY_TIME_PS_256 / 2 ^ 21 →
      ((d : ℚ) ≤ T' ↔ (d : ℚ) ≤ TIMER_2_MAX_DELAY_TIME_PS_256)) ∧
    (|T' - TIMER_2_MAX_DELAY_TIME_PS_1024| ≤ TIMER_2_MAX_DELAY_TIME_PS_1024 / 2 ^ 21 →
      ((d : ℚ) ≤ T' ↔ (d : ℚ) ≤ TIMER_2_MAX_DELAY_TIME_PS_1024)) := by
  refine ⟨fun h => perturbed_threshold _ T' 0 d ?_ ?_ ?_ h,
    fun h => perturbed_threshold _ T' 0 d ?_ ?_ ?_ h,
    fun h => perturbed_threshold _ T' 1 d ?_ ?_ ?_ h,
    fun h => perturbed_threshold _ T' 4 d ?_ ?_ ?_ h,
    fun h => perturbed_threshold _ T' 16 d ?_ ?_ ?_ h,
    fun h => perturbed_threshold _ T' 4 d ?_ ?_ ?_ h,
    fun h => perturbed_threshold _ T' 32 d ?_ ?_ ?_ h,
    fun h => perturbed_threshold _ T' 262 d ?_ ?_ ?_ h,
    fun h => perturbed_threshold _ T' 1048 d ?_ ?_ ?_ h,
    fun h => perturbed_threshold _ T' 4194 d ?_ ?_ ?_ h,
    fun h => perturbed_threshold _ T' 0 d ?_ ?_ ?_ h,
    fun h => perturbed_threshold _ T' 0 d ?_ ?_ ?_ h,
    fun h => perturbed_threshold _ T' 1 d ?_ ?_ ?_ h,
    fun h => perturbed_threshold _ T' 4 d ?_ ?_ ?_ h,
    fun h => perturbed_threshold _ T' 16 d ?_ ?_ ?_ h⟩ <;>
  norm_num [F_CPU, TIMER_0_MAX_DELAY_TIME_PS_1, TIMER_0_MAX_DELAY_TIME_PS_8,
    TIMER_0_MAX_DELAY_TIME_PS_64, TIMER_0_MAX_DELAY_TIME_PS_256, TIMER_0_MAX_DELAY_TIME_PS_1024,
    TIMER_1_MAX_DELAY_TIME_PS_1, TIMER_1_MAX_DELAY_TIME_PS_8, TIMER_1_MAX_DELAY_TIME_PS_64,
    TIMER_1_MAX_DELAY_TIME_PS_256, TIMER_1_MAX_DELAY_TIME_PS_1024, TIMER_2_MAX_DELAY_TIME_PS_1,
    TIMER_2_MAX_DELAY_TIME_PS_8, TIMER_2_MAX_DELAY_TIME_PS_64, TIMER_2_MAX_DELAY_TIME_PS_256,
    TIMER_2_MAX_DELAY_TIME_PS_1024]

/-! ## Rounding of `double` operations -/

/-- `roundEven` moves a number by at most one half. -/
theorem roundEven_close (t : ℚ) : |(roundEven t : ℚ) - t| ≤ 1 / 2 := by
  have h1 := Int.floor_le t
  have h2 := Int.lt_floor_add_one t
  unfold roundEven
  rw [abs_le]
  split_ifs with a b c
  · constructor <;> linarith
  · push_cast
    constructor <;> linarith
  · constructor <;> linarith
  · push_cast
    constructor <;> linarith

/-- A number closer than one half to an integer rounds to that integer. -/
theorem roundEven_eq_of_close (t : ℚ) (m : Int) (h : |t - (m : ℚ)| < 1 / 2) :
    roundEven t = m := by
  rw [abs_lt] at h
  obtain ⟨hl, hu⟩ := h
  by_cases hm : (m : ℚ) ≤ t
  · have hf : ⌊t⌋ = m := by
      rw [Int.floor_eq_iff]
      constructor <;> linarith
    unfold roundEven
    rw [hf, if_pos (by linarith)]
  · have hf : ⌊t⌋ = m - 1 := by
      rw [Int.floor_eq_iff]
      push_cast
      constructor <;> linarith
    unfold roundEven
    rw [hf]
    push_cast
    rw [if_neg (by linarith), if_pos (by linarith)]
    ring

/-- Binary32 rounding has relative error at most `2^-24`. -/
theorem fl32_accurate : AccurateRounding fl32 := by
  intro x
  unfold fl32
  split_ifs with hx
  · simp [hx]
  · have hpos : 0 < |x| := abs_pos.mpr hx
    have hp : (0 : ℚ) < 2 ^ (Int.log 2 |x| - 23) := by positivity
    have hlog : ((2 : ℕ) : ℚ) ^ Int.log 2 |x| ≤ |x| := Int.zpow_log_le_self (by norm_num) hpos
    have hclose := roundEven_close (x / 2 ^ (Int.log 2 |x| - 23))
    have heq : (roundEven (x / 2 ^ (Int.log 2 |x| - 23)) : ℚ) * 2 ^ (Int.log 2 |x| - 23) - x
        = ((roundEven (x / 2 ^ (Int.log 2 |x| - 23)) : ℚ) - x / 2 ^ (Int.log 2 |x| - 23))
          * 2 ^ (Int.log 2 |x| - 23) := by
      field_simp
    rw [heq, abs_mul, abs_of_pos hp]
    have hsplit : (2 : ℚ) ^ (Int.log 2 |x| - 23) = 2 ^ Int.log 2 |x| / 2 ^ 23 := by
      rw [zpow_sub₀ (by norm_num)]
      norm_num
    have h2 : (2 : ℚ) ^ Int.log 2 |x| ≤ |x| := by exact_mod_cast hlog
    calc |(roundEven (x / 2 ^ (Int.log 2 |x| - 23)) : ℚ) - x / 2 ^ (Int.log 2 |x| - 23)|
          * 2 ^ (Int.log 2 |x| - 23)
        ≤ 1 / 2 * 2 ^ (Int.log 2 |x| - 23) := by gcongr
      _ = 2 ^ Int.log 2 |x| / 2 ^ 24 := by rw [hsplit]; ring
      _ ≤ |x| / 2 ^ 24 := by gcongr

/-- Evaluation of `fl32`: a number in the binade `[2^23, 2^24) * 2^e` that is
closer than half a unit in the last place to `m * 2^e` rounds to `m * 2^e`. -/
theorem fl32_eq (x : ℚ) (e m : Int) (h1 : 2 ^ 23 * (2 : ℚ) ^ e ≤ x)
    (h2 : x < 2 ^ 24 * (2 : ℚ) ^ e) (h3 : |x / 2 ^ e - (m : ℚ)| < 1 / 2) :
    fl32 x = (m : ℚ) * 2 ^ e := by
  have hp : (0 : ℚ) < 2 ^ e := by positivity
  have hx : 0 < x := lt_of_lt_of_le (by positivity) h1
  have habs : |x| = x := abs_of_pos hx
  have hlog : Int.log 2 |x| = e + 23 := by
    rw [habs]
    apply le_antisymm
    · have : Int.log 2 x < e + 24 := by
        rw [← Int.lt_zpow_iff_log_lt (by norm_num) hx]
        rw [zpow_add₀ (by norm_num)]
        push_cast
        calc x < 2 ^ 24 * (2 : ℚ) ^ e := h2
          _ = 2 ^ e * 2 ^ (24 : ℤ) := by norm_num; ring
      omega
    · rw [← Int.zpow_le_iff_le_log (by norm_num) hx]
      rw [zpow_add₀ (by norm_num)]
      push_cast
      calc (2 : ℚ) ^ e * 2 ^ (23 : ℤ) = 2 ^ 23 * (2 : ℚ) ^ e := by norm_num; ring
        _ ≤ x := h1
  unfold fl32
  rw [if_neg (ne_of_gt hx), hlog]
  have he : e + 23 - 23 = e := by ring
  rw [he, roundEven_eq_of_close _ m h3]

/-- An accurate rounding keeps a non-negative number within the factors
`1 - 2^-24` and `1 + 2^-24`. -/
theorem fl_bounds (fl : ℚ → ℚ) (hfl : AccurateRounding fl) (x : ℚ) (hx : 0 ≤ x) :
    x * (16777215 / 16777216) ≤ fl x ∧ fl x ≤ x * (16777217 / 16777216) := by
  have h := hfl x
  rw [abs_of_nonneg hx, abs_le] at h
  obtain ⟨h1, h2⟩ := h
  constructor
  · have : x * (16777215 / 16777216) = x - x / 2 ^ 24 := by norm_num; ring
    linarith
  · have : x * (16777217 / 16777216) = x + x / 2 ^ 24 := by norm_num; ring
    linarith

/-- With accurate rounding the `double` value of the compare-value formula is
within relative distance `2^-21` of the exact tick count `16000 * d / P`. -/
theorem compareDouble_near (fl : ℚ → ℚ) (hfl : AccurateRounding fl) (d : Int) (P MAX : Nat)
    (hd : 0 < d) (hP : 0 < P) (hM : 0 < MAX) :
    (16000 * d : ℚ) / P * (2097151 / 2097152) ≤ compareDouble fl d P MAX ∧
    compareDouble fl d P MAX ≤ (16000 * d : ℚ) / P * (2097153 / 2097152) := by
  have hdq : (0 : ℚ) < d := by exact_mod_cast hd
  have hPq : (0 : ℚ) < P := by exact_mod_cast hP
  have hMq : (0 : ℚ) < MAX := by exact_mod_cast hM
  -- a = fl (1000 / F_CPU)
  obtain ⟨ha1, ha2⟩ := fl_bounds fl hfl (1000 / F_CPU) (by unfold F_CPU; norm_num)
  have hA : (1000 : ℚ) / F_CPU = 1 / 16000 := by unfold F_CPU; norm_num
  set a := fl (1000 / F_CPU) with ha
  rw [hA] at ha1 ha2
  have ha0 : 0 < a := lt_of_lt_of_le (by norm_num) ha1
  -- b = fl (a * P)
  obtain ⟨hb1, hb2⟩ := fl_bounds fl hfl (a * P) (by positivity)
  set b := fl (a * P) with hb
  have hb0 : 0 < b := lt_of_lt_of_le (by positivity) hb1
  -- c = fl (b * MAX)
  obtain ⟨hc1, hc2⟩ := fl_bounds fl hfl (b * MAX) (by positivity)
  set c := fl (b * MAX) with hc
  have hc0 : 0 < c := lt_of_lt_of_le (by positivity) hc1
  -- q = fl (d / c)
  obtain ⟨hq1, hq2⟩ := fl_bounds fl hfl ((d : ℚ) / c) (by positivity)
  set q := fl ((d : ℚ) / c) with hq
  have hq0 : 0 < q := lt_of_lt_of_le (by positivity) hq1
  -- r = fl (q * MAX)
  obtain ⟨hr1, hr2⟩ := fl_bounds fl hfl (q * MAX) (by positivity)
  have hr : compareDouble fl d P MAX = fl (q * MAX) := rfl
  rw [hr]
  -- closed bounds on c
  have hcl : 1 / 16000 * (16777215 / 16777216) * P * (16777215 / 16777216) * MAX
      * (16777215 / 16777216) ≤ c := by
    calc 1 / 16000 * (16777215 / 16777216) * P * (16777215 / 16777216) * MAX
          * (16777215 / 16777216)
        ≤ a * P * (16777215 / 16777216) * MAX * (16777215 / 16777216) := by gcongr
      _ ≤ b * MAX * (16777215 / 16777216) := by gcongr
      _ ≤ c := hc1
  have hch : c ≤ 1 / 16000 * (16777217 / 16777216) * P * (16777217 / 16777216) * MAX
      * (16777217 / 16777216) := by
    calc c ≤ b * MAX * (16777217 / 16777216) := hc2
      _ ≤ a * P * (16777217 / 16777216) * MAX * (16777217 / 16777216) := by gcongr
      _ ≤ 1 / 16000 * (16777217 / 16777216) * P * (16777217 / 16777216) * MAX
          * (16777217 / 16777216) := by gcongr
  constructor
  · calc (16000 * d : ℚ) / P * (2097151 / 2097152)
        ≤ (16000 * d : ℚ) / P * ((16777215 / 16777216) ^ 2 / (16777217 / 16777216) ^ 3) :=
          mul_le_mul_of_nonneg_left (by norm_num) (by positivity)
      _ = (d : ℚ) / (1 / 16000 * (16777217 / 16777216) * P * (16777217 / 16777216) * MAX
          * (16777217 / 16777216)) * (16777215 / 16777216) * MAX * (16777215 / 16777216) := by
          field_simp
          ring
      _ ≤ (d : ℚ) / c * (16777215 / 16777216) * MAX * (16777215 / 16777216) := by gcongr
      _ ≤ q * MAX * (16777215 / 16777216) := by gcongr
      _ ≤ fl (q * MAX) := hr1
  · calc fl (q * MAX) ≤ q * MAX * (16777217 / 16777216) := hr2
      _ ≤ (d : ℚ) / c * (16777217 / 16777216) * MAX * (16777217 / 16777216) := by gcongr
      _ ≤ (d : ℚ) / (1 / 16000 * (16777215 / 16777216) * P * (16777215 / 16777216) * MAX
          * (16777215 / 16777216)) * (16777217 / 16777216) * MAX * (16777217 / 16777216) := by
          gcongr
      _ = (16000 * d : ℚ) / P * ((16777217 / 16777216) ^ 2 / (16777215 / 16777216) ^ 3) := by
          field_simp
          ring
      _ ≤ (16000 * d : ℚ) / P * (2097153 / 2097152) :=
          mul_le_mul_of_nonneg_left (by norm_num) (by positivity)

/-- On a non-negative number the `(int)` cast is the floor. -/
theorem cTrunc_of_nonneg (q : ℚ) (h : 0 ≤ q) : cTrunc q = ⌊q⌋ := by
  unfold cTrunc
  rw [Rat.floor_def]
  exact Int.tdiv_eq_ediv (Rat.num_nonneg.mpr h) (Int.natCast_nonneg _)

/-- Exact arithmetic is an accurate rounding. -/
theorem accurate_of_exact (fl : ℚ → ℚ) (hex : ∀ x, fl x = x) : AccurateRounding fl := by
  intro x
  rw [hex x, sub_self, abs_zero]
  positivity

/-- With accurate rounding, on a branch whose exact tick count `16000 * d / P`
lies in `[78, MAX - 3]`, the compare value lies in `(0, MAX]`, exceeds the exact
tick count by less than 1/32 and falls short of it by less than 1 + 1/32. -/
theorem compareValue_facts (fl : ℚ → ℚ) (hfl : AccurateRounding fl) (d : Int) (P MAX : Nat)
    (hd : 0 < d) (hP : 0 < P) (hM : 0 < MAX) (hmax : MAX ≤ 65535)
    (hlo : 78 * (P : Int) ≤ 16000 * d) (hhi : 16000 * d ≤ ((MAX : Int) - 3) * (P : Int)) :
    0 < compareValue fl d P MAX ∧ compareValue fl d P MAX ≤ (MAX : Int) ∧
    32 * compareValue fl d P MAX * (P : Int) ≤ 32 * (16000 * d) + (P : Int) ∧
    32 * (16000 * d) < (32 * compareValue fl d P MAX + 33) * (P : Int) := by
  obtain ⟨hn1, hn2⟩ := compareDouble_near fl hfl d P MAX hd hP hM
  have hPq : (0 : ℚ) < P := by exact_mod_cast hP
  have hloq : (78 : ℚ) * P ≤ 16000 * d := by exact_mod_cast hlo
  have hhiq : (16000 : ℚ) * d ≤ ((MAX : ℚ) - 3) * P := by exact_mod_cast hhi
  have hmaxq : (MAX : ℚ) ≤ 65535 := by exact_mod_cast hmax
  have hE1 : (78 : ℚ) ≤ 16000 * d / P := by
    rw [le_div_iff₀ hPq]
    exact hloq
  have hE2 : (16000 : ℚ) * d / P ≤ (MAX : ℚ) - 3 := by
    rw [div_le_iff₀ hPq]
    exact hhiq
  have hEP : (16000 : ℚ) * d / P * P = 16000 * d := by field_simp
  set E : ℚ := 16000 * d / P with hE
  set r : ℚ := compareDouble fl d P MAX with hr
  have hr1 : E - 1 / 32 < r := by linarith
  have hr2 : r < E + 1 / 32 := by linarith
  have hr0 : 0 ≤ r := by linarith
  have hv : compareValue fl d P MAX = ⌊r⌋ := cTrunc_of_nonneg r hr0
  have hf1 : ((⌊r⌋ : Int) : ℚ) ≤ r := Int.floor_le r
  have hf2 : r < ((⌊r⌋ : Int) : ℚ) + 1 := Int.lt_floor_add_one r
  rw [hv]
  refine ⟨?_, ?_, ?_, ?_⟩
  · have : (1 : Int) ≤ ⌊r⌋ := Int.le_floor.mpr (by push_cast; linarith)
    omega
  · have h : ((⌊r⌋ : Int) : ℚ) < ((MAX : Int) : ℚ) + 1 := by push_cast; linarith
    have h' : (⌊r⌋ : Int) < (MAX : Int) + 1 := by exact_mod_cast h
    omega
  · have h : ((⌊r⌋ : Int) : ℚ) * P < (E + 1 / 32) * P :=
      mul_lt_mul_of_pos_right (by linarith) hPq
    have h' : (32 : ℚ) * ⌊r⌋ * P ≤ 32 * (16000 * d) + P := by
      have : (E + 1 / 32) * P = 16000 * d + P / 32 := by rw [add_mul, hEP]; ring
      rw [this] at h
      linarith
    exact_mod_cast h'
  · have h : (E - 1 / 32) * P < (((⌊r⌋ : Int) : ℚ) + 1) * P :=
      mul_lt_mul_of_pos_right (by linarith) hPq
    have h' : (32 : ℚ) * (16000 * d) < (32 * ⌊r⌋ + 33) * P := by
      have : (E - 1 / 32) * P = 16000 * d - P / 32 := by rw [sub_mul, hEP]; ring
      rw [this] at h
      linarith
    exact_mod_cast h'

/-- In exact arithmetic, for a non-negative delay, the compare value is the
integer quotient `16000 * delayTime / P`, whatever the counter maximum. -/
theorem compareValue_eq (fl : ℚ → ℚ) (hex : ∀ x, fl x = x) (d : Int) (P MAX : Nat)
    (hd : 0 ≤ d) (hP : 0 < P) (hM : 0 < MAX) :
    compareValue fl d P MAX = (16000 * d) / (P : Int) := by
  have hq : compareDouble fl d P MAX = ((16000 * d : Int) : ℚ) / (P : ℚ) := by
    have hP' : (P : ℚ) ≠ 0 := by positivity
    have hM' : (MAX : ℚ) ≠ 0 := by positivity
    simp only [compareDouble, hex]
    unfold F_CPU
    push_cast
    field_simp
    ring
  unfold compareValue
  rw [hq, cTrunc_of_nonneg, Rat.floor_intCast_div_natCast]
  have : (0:ℚ) ≤ ((16000 * d : Int) : ℚ) := by exact_mod_cast (by omega : 0 ≤ 16000 * d)
  positivity

/-- The binary32 value of `1000.0 / F_CPU`. -/
theorem fl32_clock_period : fl32 (1000 / F_CPU) = (8589935 * 2 ^ (-37 : Int) : ℚ) := by
  have h := fl32_eq (1000 / F_CPU) (-37) 8589935 (by norm_num [F_CPU]) (by norm_num [F_CPU])
    (by rw [abs_lt]; constructor <;> norm_num [F_CPU])
  simpa using h

/-- The compare-value formula in binary32 arithmetic for a delay of 1 ms,
prescaler 64 and counter maximum 255: the cast yields 249
(the exact quotient is 250). -/
theorem compareValue_fl32_1_64_255 : compareValue fl32 1 64 255 = 249 := by
  have hb : fl32 ((8589935 * 2 ^ (-37 : Int) : ℚ) * ((64 : Nat) : ℚ)) = (8589935 * 2 ^ (-31 : Int) : ℚ) := by
    have h := fl32_eq ((8589935 * 2 ^ (-37 : Int) : ℚ) * ((64 : Nat) : ℚ)) (-31) 8589935 (by norm_num)
      (by norm_num) (by rw [abs_lt]; constructor <;> norm_num)
    simpa using h
  have hc : fl32 ((8589935 * 2 ^ (-31 : Int) : ℚ) * ((255 : Nat) : ℚ)) = (8556381 * 2 ^ (-23 : Int) : ℚ) := by
    have h := fl32_eq ((8589935 * 2 ^ (-31 : Int) : ℚ) * ((255 : Nat) : ℚ)) (-23) 8556381 (by norm_num)
      (by norm_num) (by rw [abs_lt]; constructor <;> norm_num)
    simpa using h
  have hq : fl32 (((1 : Int) : ℚ) / (8556381 * 2 ^ (-23 : Int) : ℚ)) = (16448249 * 2 ^ (-24 : Int) : ℚ) := by
    have h := fl32_eq (((1 : Int) : ℚ) / (8556381 * 2 ^ (-23 : Int) : ℚ)) (-24) 16448249 (by norm_num)
      (by norm_num) (by rw [abs_lt]; constructor <;> norm_num)
    simpa using h
  have hr : fl32 ((16448249 * 2 ^ (-24 : Int) : ℚ) * ((255 : Nat) : ℚ)) = (16383998 * 2 ^ (-16 : Int) : ℚ) := by
    have h := fl32_eq ((16448249 * 2 ^ (-24 : Int) : ℚ) * ((255 : Nat) : ℚ)) (-16) 16383998 (by norm_num)
      (by norm_num) (by rw [abs_lt]; constructor <;> norm_num)
    simpa using h
  unfold compareValue compareDouble
  rw [fl32_clock_period, hb, hc, hq, hr]
  norm_num [cTrunc]
  rfl

/-- The compare-value formula in binary32 arithmetic for a delay of 6 ms,
prescaler 1024 and counter maximum 255: the cast yields 93
(the exact quotient is 375/4). -/
theorem compareValue_fl32_6_1024_255 : compareValue fl32 6 1024 255 = 93 := by
  have hb : fl32 ((8589935 * 2 ^ (-37 : Int) : ℚ) * ((1024 : Nat) : ℚ)) = (8589935 * 2 ^ (-27 : Int) : ℚ) := by
    have h := fl32_eq ((8589935 * 2 ^ (-37 : Int) : ℚ) * ((1024 : Nat) : ℚ)) (-27) 8589935 (by norm_num)
      (by norm_num) (by rw [abs_lt]; constructor <;> norm_num)
    simpa using h
  have hc : fl32 ((8589935 * 2 ^ (-27 : Int) : ℚ) * ((255 : Nat) : ℚ)) = (8556381 * 2 ^ (-19 : Int) : ℚ) := by
    have h := fl32_eq ((8589935 * 2 ^ (-27 : Int) : ℚ) * ((255 : Nat) : ℚ)) (-19) 8556381 (by norm_num)
      (by norm_num) (by rw [abs_lt]; constructor <;> norm_num)
    simpa using h
  have hq : fl32 (((6 : Int) : ℚ) / (8556381 * 2 ^ (-19 : Int) : ℚ)) = (12336187 * 2 ^ (-25 : Int) : ℚ) := by
    have h := fl32_eq (((6 : Int) : ℚ) / (8556381 * 2 ^ (-19 : Int) : ℚ)) (-25) 12336187 (by norm_num)
      (by norm_num) (by rw [abs_lt]; constructor <;> norm_num)
    simpa using h
  have hr : fl32 ((12336187 * 2 ^ (-25 : Int) : ℚ) * ((255 : Nat) : ℚ)) = (12287999 * 2 ^ (-17 : Int) : ℚ) := by
    have h := fl32_eq ((12336187 * 2 ^ (-25 : Int) : ℚ) * ((255 : Nat) : ℚ)) (-17) 12287999 (by norm_num)
      (by norm_num) (by rw [abs_lt]; constructor <;> norm_num)
    simpa using h
  unfold compareValue compareDouble
  rw [fl32_clock_period, hb, hc, hq, hr]
  norm_num [cTrunc]
  rfl

/-- The compare-value formula in binary32 arithmetic for a delay of 1000 ms,
prescaler 256 and counter maximum 65535: the cast yields 62499
(the exact quotient is 62500). -/
theorem compareValue_fl32_1000_256_65535 : compareValue fl32 1000 256 65535 = 62499 := by
  have hb : fl32 ((8589935 * 2 ^ (-37 : Int) : ℚ) * ((256 : Nat) : ℚ)) = (8589935 * 2 ^ (-29 : Int) : ℚ) := by
    have h := fl32_eq ((8589935 * 2 ^ (-37 : Int) : ℚ) * ((256 : Nat) : ℚ)) (-29) 8589935 (by norm_num)
      (by norm_num) (by rw [abs_lt]; constructor <;> norm_num)
    simpa using h
  have hc : fl32 ((8589935 * 2 ^ (-29 : Int) : ℚ) * ((65535 : Nat) : ℚ)) = (8589804 * 2 ^ (-13 : Int) : ℚ) := by
    have h := fl32_eq ((8589935 * 2 ^ (-29 : Int) : ℚ) * ((65535 : Nat) : ℚ)) (-13) 8589804 (by norm_num)
      (by norm_num) (by rw [abs_lt]; constructor <;> norm_num)
    simpa using h
  have hq : fl32 (((1000 : Int) : ℚ) / (8589804 * 2 ^ (-13 : Int) : ℚ)) = (16000243 * 2 ^ (-24 : Int) : ℚ) := by
    have h := fl32_eq (((1000 : Int) : ℚ) / (8589804 * 2 ^ (-13 : Int) : ℚ)) (-24) 16000243 (by norm_num)
      (by norm_num) (by rw [abs_lt]; constructor <;> norm_num)
    simpa using h
  have hr : fl32 ((16000243 * 2 ^ (-24 : Int) : ℚ) * ((65535 : Nat) : ℚ)) = (15999999 * 2 ^ (-8 : Int) : ℚ) := by
    have h := fl32_eq ((16000243 * 2 ^ (-24 : Int) : ℚ) * ((65535 : Nat) : ℚ)) (-8) 15999999 (by norm_num)
      (by norm_num) (by rw [abs_lt]; constructor <;> norm_num)
    simpa using h
  unfold compareValue compareDouble
  rw [fl32_clock_period, hb, hc, hq, hr]
  norm_num [cTrunc]
  rfl

/-! ## What `ConfigureTimer` does in `DELAY_MODE`, unit by unit -/

/-- Timer 0, positive delay: the branch taken and the registers written. -/
theorem ConfigureTimer_delay_timer0 (fl : ℚ → ℚ) (numArgs d : Int) (rest : List Int) (s : Regs) (hd : 0 < d) :
    ConfigureTimer fl numArgs (TIMER_0 :: DELAY_MODE :: d :: rest) s =
      if d ≤ 1 then
        some ⟨0, { s with TCCR0A := 2, TCCR0B := 3, TIMSK0 := 2,
                          OCR0A := store8 (compareValue fl d 64 0xFF) }, some 64⟩
      else if d ≤ 4 then
        some ⟨0, { s with TCCR0A := 2, TCCR0B := 4, TIMSK0 := 2,
                          OCR0A := store8 (compareValue fl d 256 0xFF) }, some 256⟩
      else if d ≤ 16 then
        some ⟨0, { s with TCCR0A := 2, TCCR0B := 5, TIMSK0 := 2,
                          OCR0A := store8 (compareValue fl d 1024 0xFF) }, some 1024⟩
      else
        some ⟨ERR_INVALID_DELAY_TIME, { s with TCCR0A := 0, TCCR0B := 0, TIMSK0 := 0 }, none⟩ := by
  have h0 : ¬ d ≤ 0 := by omega
  simp only [ConfigureTimer, va_arg, ResetTimer, le_T0_PS_1, le_T0_PS_8, le_T0_PS_64,
    le_T0_PS_256, le_T0_PS_1024, h0, if_true, if_false, _BV, CS00, CS01, CS02, WGM01, OCIE0A]
  split_ifs <;> simp


/-- Timer 1, positive delay: the branch taken and the registers written. -/
theorem ConfigureTimer_delay_timer1 (fl : ℚ → ℚ) (numArgs d : Int) (rest : List Int) (s : Regs) (hd : 0 < d) :
    ConfigureTimer fl numArgs (TIMER_1 :: DELAY_MODE :: d :: rest) s =
      if d ≤ 4 then
        some ⟨0, { s with TCCR1A := 0, TCCR1B := 9, TIMSK1 := 2,
                          OCR1A := store16 (compareValue fl d 1 0xFFFF) }, some 1⟩
      else if d ≤ 32 then
        some ⟨0, { s with TCCR1A := 0, TCCR1B := 10, TIMSK1 := 2,
                          OCR1A := store16 (compareValue fl d 8 0xFFFF) }, some 8⟩
      else if d ≤ 262 then
        some ⟨0, { s with TCCR1A := 0, TCCR1B := 11, TIMSK1 := 2,
                          OCR1A := store16 (compareValue fl d 64 0xFFFF) }, some 64⟩
      else if d ≤ 1048 then
        some ⟨0, { s with TCCR1A := 0, TCCR1B := 12, TIMSK1 := 2,
                          OCR1A := store16 (compareValue fl d 256 0xFFFF) }, some 256⟩
      else if d ≤ 4194 then
        some ⟨0, { s with TCCR1A := 0, TCCR1B := 13, TIMSK1 := 2,
                          OCR1A := store16 (compareValue fl d 1024 0xFFFF) }, some 1024⟩
      else
        some ⟨ERR_INVALID_DELAY_TIME, { s with TCCR1A := 0, TCCR1B := 0, TIMSK1 := 0 }, none⟩ := by
  have h0 : ¬ d ≤ 0 := by omega
  have h10 : TIMER_1 ≠ TIMER_0 := by decide
  simp only [ConfigureTimer, va_arg, ResetTimer, le_T1_PS_1, le_T1_PS_8, le_T1_PS_64,
    le_T1_PS_256, le_T1_PS_1024, h0, h10, if_true, if_false, _BV, CS10, CS01, CS11, CS12,
    WGM12, OCIE1A]
  split_ifs <;> simp

/-- Timer 2, positive delay: the branch taken and the registers written. -/
theorem ConfigureTimer_delay_timer2 (fl : ℚ → ℚ) (numArgs d : Int) (rest : List Int) (s : Regs) (hd : 0 < d) :
    ConfigureTimer fl numArgs (TIMER_2 :: DELAY_MODE :: d :: rest) s =
      if d ≤ 1 then
        some ⟨0, { s with TCCR2A := 2, TCCR2B := 3, TIMSK2 := 2,
                          OCR2A := store8 (compareValue fl d 64 0xFF) }, some 64⟩
      else if d ≤ 4 then
        some ⟨0, { s with TCCR2A := 2, TCCR2B := 4, TIMSK2 := 2,
                          OCR2A := store8 (compareValue fl d 256 0xFF) }, some 256⟩
      else if d ≤ 16 then
        some ⟨0, { s with TCCR2A := 2, TCCR2B := 5, TIMSK2 := 2,
                          OCR2A := store8 (compareValue fl d 1024 0xFF) }, some 1024⟩
      else
        some ⟨ERR_INVALID_DELAY_TIME, { s with TCCR2A := 0, TCCR2B := 0, TIMSK2 := 0 }, none⟩ := by
  have h0 : ¬ d ≤ 0 := by omega
  have h20 : TIMER_2 ≠ TIMER_0 := by decide
  have h21 : TIMER_2 ≠ TIMER_1 := by decide
  simp only [ConfigureTimer, va_arg, ResetTimer, le_T2_PS_1, le_T2_PS_8, le_T2_PS_64,
    le_T2_PS_256, le_T2_PS_1024, h0, h20, h21, if_true, if_false, _BV, CS20, CS21, CS22,
    WGM21, OCIE2A]
  split_ifs <;> simp

/-- A non-positive delay: the request is refused before any register is touched. -/
theorem ConfigureTimer_delay_nonpos (fl : ℚ → ℚ) (numArgs timer d : Int) (rest : List Int) (s : Regs)
    (hd : d ≤ 0) :
    ConfigureTimer fl numArgs (timer :: DELAY_MODE :: d :: rest) s =
      some ⟨ERR_INVALID_DELAY_TIME, s, none⟩ := by
  simp only [ConfigureTimer, va_arg, hd, if_true]

/-- A positive delay on an unknown timer: refused before any register is touched. -/
theorem ConfigureTimer_delay_unknown (fl : ℚ → ℚ) (numArgs timer d : Int) (rest : List Int) (s : Regs)
    (hd : 0 < d) (h0 : timer ≠ TIMER_0) (h1 : timer ≠ TIMER_1) (h2 : timer ≠ TIMER_2) :
    ConfigureTimer fl numArgs (timer :: DELAY_MODE :: d :: rest) s =
      some ⟨ERR_INVALID_TIMER, s, none⟩ := by
  have hd0 : ¬ d ≤ 0 := by omega
  simp only [ConfigureTimer, va_arg, hd0, h0, h1, h2, if_true, if_false]


/-- An in-range non-negative value is stored unchanged in an 8-bit register. -/
theorem store8_of_le (v : Int) (h0 : 0 ≤ v) (h1 : v ≤ 255) : (store8 v : Int) = v := by
  unfold store8
  omega

/-- An in-range non-negative value is stored unchanged in a 16-bit register. -/
theorem store16_of_le (v : Int) (h0 : 0 ≤ v) (h1 : v ≤ 65535) : (store16 v : Int) = v := by
  unfold store16
  omega

/-- The specification's `maxDelay` thresholds of Timer 0, on integer delays. -/
theorem le_maxDelay_timer0 (d : Int) :
    ((d : ℚ) ≤ maxDelay TIMER_0 64 ↔ d ≤ 1) ∧ ((d : ℚ) ≤ maxDelay TIMER_0 256 ↔ d ≤ 4) ∧
    ((d : ℚ) ≤ maxDelay TIMER_0 1024 ↔ d ≤ 16) := by
  refine ⟨int_le_rat_iff d 1 _ ?_ ?_, int_le_rat_iff d 4 _ ?_ ?_, int_le_rat_iff d 16 _ ?_ ?_⟩ <;>
    norm_num [maxDelay, counterMax, TIMER_0, TIMER_1]

/-- The specification's `maxDelay` thresholds of Timer 1, on integer delays. -/
theorem le_maxDelay_timer1 (d : Int) :
    ((d : ℚ) ≤ maxDelay TIMER_1 1 ↔ d ≤ 4) ∧ ((d : ℚ) ≤ maxDelay TIMER_1 8 ↔ d ≤ 32) ∧
    ((d : ℚ) ≤ maxDelay TIMER_1 64 ↔ d ≤ 262) ∧ ((d : ℚ) ≤ maxDelay TIMER_1 256 ↔ d ≤ 1048) ∧
    ((d : ℚ) ≤ maxDelay TIMER_1 1024 ↔ d ≤ 4194) := by
  refine ⟨int_le_rat_iff d 4 _ ?_ ?_, int_le_rat_iff d 32 _ ?_ ?_, int_le_rat_iff d 262 _ ?_ ?_,
    int_le_rat_iff d 1048 _ ?_ ?_, int_le_rat_iff d 4194 _ ?_ ?_⟩ <;>
    norm_num [maxDelay, counterMax, TIMER_1]

/-- The specification's `maxDelay` thresholds of Timer 2, on integer delays. -/
theorem le_maxDelay_timer2 (d : Int) :
    ((d : ℚ) ≤ maxDelay TIMER_2 64 ↔ d ≤ 1) ∧ ((d : ℚ) ≤ maxDelay TIMER_2 256 ↔ d ≤ 4) ∧
    ((d : ℚ) ≤ maxDelay TIMER_2 1024 ↔ d ≤ 16) := by
  refine ⟨int_le_rat_iff d 1 _ ?_ ?_, int_le_rat_iff d 4 _ ?_ ?_, int_le_rat_iff d 16 _ ?_ ?_⟩ <;>
    norm_num [maxDelay, counterMax, TIMER_2, TIMER_1]


/-- A successful `DELAY_MODE` call had a positive delay. -/
theorem delay_pos_of_success (fl : ℚ → ℚ) (numArgs timer d : Int) (rest : List Int) (s : Regs) (r : Outcome)
    (hcall : ConfigureTimer fl numArgs (timer :: DELAY_MODE :: d :: rest) s = some r)
    (hret : r.ret = 0) : 0 < d := by
  by_contra hd
  rw [ConfigureTimer_delay_nonpos _ _ _ _ _ _ (by omega)] at hcall
  cases hcall
  simp [ERR_INVALID_DELAY_TIME] at hret

/-- A successful `DELAY_MODE` call took a branch with some prescaler factor
`p`: the delay is positive, the exact tick count `16000 * d / p` lies in
`[78, counterMax - 3]`, and the unit's compare register received the value of
the compare-value formula with factor `p`. -/
theorem success_branch (fl : ℚ → ℚ) (numArgs timer d : Int) (rest : List Int) (s : Regs)
    (r : Outcome) (ht : timer = TIMER_0 ∨ timer = TIMER_1 ∨ timer = TIMER_2)
    (hcall : ConfigureTimer fl numArgs (timer :: DELAY_MODE :: d :: rest) s = some r)
    (hret : r.ret = 0) :
    ∃ p : Nat, r.prescaler = some p ∧ 0 < p ∧ 0 < d ∧
      78 * (p : Int) ≤ 16000 * d ∧
      16000 * d ≤ ((counterMax timer : Int) - 3) * (p : Int) ∧
      compareReg timer r.regs =
        (if timer = TIMER_1 then store16 (compareValue fl d p 65535)
         else store8 (compareValue fl d p 255)) := by
  have hpos := delay_pos_of_success fl numArgs timer d rest s r hcall hret
  have h01 : TIMER_0 ≠ TIMER_1 := by decide
  have h21 : TIMER_2 ≠ TIMER_1 := by decide
  rcases ht with rfl | rfl | rfl
  · rw [ConfigureTimer_delay_timer0 _ _ _ _ _ hpos] at hcall
    split_ifs at hcall <;> cases hcall
    · refine ⟨64, rfl, by decide, hpos, ?_, ?_, ?_⟩
      · push_cast; omega
      · simp only [counterMax, h01, if_true, if_false]; push_cast; omega
      · simp [compareReg, h01, TIMER_0, TIMER_1, TIMER_2]
    · refine ⟨256, rfl, by decide, hpos, ?_, ?_, ?_⟩
      · push_cast; omega
      · simp only [counterMax, h01, if_true, if_false]; push_cast; omega
      · simp [compareReg, h01, TIMER_0, TIMER_1, TIMER_2]
    · refine ⟨1024, rfl, by decide, hpos, ?_, ?_, ?_⟩
      · push_cast; omega
      · simp only [counterMax, h01, if_true, if_false]; push_cast; omega
      · simp [compareReg, h01, TIMER_0, TIMER_1, TIMER_2]
    · simp [ERR_INVALID_DELAY_TIME] at hret
  · rw [ConfigureTimer_delay_timer1 _ _ _ _ _ hpos] at hcall
    split_ifs at hcall <;> cases hcall
    · refine ⟨1, rfl, by decide, hpos, ?_, ?_, ?_⟩
      · push_cast; omega
      · simp only [counterMax, if_true, if_false]; push_cast; omega
      · simp [compareReg, TIMER_0, TIMER_1, TIMER_2]
    · refine ⟨8, rfl, by decide, hpos, ?_, ?_, ?_⟩
      · push_cast; omega
      · simp only [counterMax, if_true, if_false]; push_cast; omega
      · simp [compareReg, TIMER_0, TIMER_1, TIMER_2]
    · refine ⟨64, rfl, by decide, hpos, ?_, ?_, ?_⟩
      · push_cast; omega
      · simp only [counterMax, if_true, if_false]; push_cast; omega
      · simp [compareReg, TIMER_0, TIMER_1, TIMER_2]
    · refine ⟨256, rfl, by decide, hpos, ?_, ?_, ?_⟩
      · push_cast; omega
      · simp only [counterMax, if_true, if_false]; push_cast; omega
      · simp [compareReg, TIMER_0, TIMER_1, TIMER_2]
    · refine ⟨1024, rfl, by decide, hpos, ?_, ?_, ?_⟩
      · push_cast; omega
      · simp only [counterMax, if_true, if_false]; push_cast; omega
      · simp [compareReg, TIMER_0, TIMER_1, TIMER_2]
    · simp [ERR_INVALID_DELAY_TIME] at hret
  · rw [ConfigureTimer_delay_timer2 _ _ _ _ _ hpos] at hcall
    split_ifs at hcall <;> cases hcall
    · refine ⟨64, rfl, by decide, hpos, ?_, ?_, ?_⟩
      · push_cast; omega
      · simp only [counterMax, h21, if_true, if_false]; push_cast; omega
      · simp [compareReg, h21, TIMER_0, TIMER_1, TIMER_2]
    · refine ⟨256, rfl, by decide, hpos, ?_, ?_, ?_⟩
      · push_cast; omega
      · simp only [counterMax, h21, if_true, if_false]; push_cast; omega
      · simp [compareReg, h21, TIMER_0, TIMER_1, TIMER_2]
    · refine ⟨1024, rfl, by decide, hpos, ?_, ?_, ?_⟩
      · push_cast; omega
      · simp only [counterMax, h21, if_true, if_false]; push_cast; omega
      · simp [compareReg, h21, TIMER_0, TIMER_1, TIMER_2]
    · simp [ERR_INVALID_DELAY_TIME] at hret

/-- With accurate rounding a successful `DELAY_MODE` call, whose branch has
prescaler factor `p`, computes a compare value `v` in `(0, counterMax]`, stores
it unchanged in the unit's compare register, and `v` exceeds the exact tick
count `16000 * d / p` by less than 1/32 and falls short of it by less than
1 + 1/32. -/
theorem success_compare_value (fl : ℚ → ℚ) (hfl : AccurateRounding fl) (numArgs timer d : Int)
    (rest : List Int) (s : Regs)
    (r : Outcome) (ht : timer = TIMER_0 ∨ timer = TIMER_1 ∨ timer = TIMER_2)
    (hcall : ConfigureTimer fl numArgs (timer :: DELAY_MODE :: d :: rest) s = some r)
    (hret : r.ret = 0) :
    ∃ p : Nat, r.prescaler = some p ∧ 0 < p ∧ 0 < d ∧
      0 < compareValue fl d p (counterMax timer) ∧
      compareValue fl d p (counterMax timer) ≤ (counterMax timer : Int) ∧
      (compareReg timer r.regs : Int) = compareValue fl d p (counterMax timer) ∧
      32 * compareValue fl d p (counterMax timer) * (p : Int) ≤ 32 * (16000 * d) + (p : Int) ∧
      32 * (16000 * d) < (32 * compareValue fl d p (counterMax timer) + 33) * (p : Int) := by
  obtain ⟨p, hp, hp0, hd, hlo, hhi, hreg⟩ := success_branch fl numArgs timer d rest s r ht hcall hret
  have hM : 0 < counterMax timer := by
    unfold counterMax
    split_ifs <;> decide
  have hmax : counterMax timer ≤ 65535 := by
    unfold counterMax
    split_ifs <;> decide
  obtain ⟨f1, f2, f3, f4⟩ :=
    compareValue_facts fl hfl d p (counterMax timer) hd hp0 hM hmax hlo hhi
  refine ⟨p, hp, hp0, hd, f1, f2, ?_, f3, f4⟩
  rw [hreg]
  by_cases h1 : timer = TIMER_1
  · have hc : counterMax timer = 65535 := by simp [counterMax, h1]
    rw [hc] at f1 f2 ⊢
    rw [if_pos h1]
    exact store16_of_le _ (by omega) (by exact_mod_cast f2)
  · have hc : counterMax timer = 255 := by simp [counterMax, h1]
    rw [hc] at f1 f2 ⊢
    rw [if_neg h1]
    exact store8_of_le _ (by omega) (by exact_mod_cast f2)

/-- Timer 0 with a delay of 17 ms: refused, the unit is left reset. -/
theorem timer0_delay_17 (s : Regs) :
    ConfigureTimer fl32 3 [TIMER_0, DELAY_MODE, 17] s =
      some ⟨ERR_INVALID_DELAY_TIME, { s with TCCR0A := 0, TCCR0B := 0, TIMSK0 := 0 }, none⟩ := by
  rw [ConfigureTimer_delay_timer0 _ _ _ _ _ (by decide)]
  rfl

/-- Timer 0 with a delay of 1 ms in binary32 arithmetic: divisor 64, compare
value 249 (the exact tick count is 250). -/
theorem timer0_delay_1 (s : Regs) :
    ConfigureTimer fl32 3 [TIMER_0, DELAY_MODE, 1] s =
      some ⟨0, { s with TCCR0A := 2, TCCR0B := 3, TIMSK0 := 2, OCR0A := 249 }, some 64⟩ := by
  rw [ConfigureTimer_delay_timer0 _ _ _ _ _ (by decide), compareValue_fl32_1_64_255]
  rfl

/-- Timer 0 with a delay of 6 ms in binary32 arithmetic: divisor 1024, compare
value 93 (the exact tick count is 93.75). -/
theorem timer0_delay_6 (s : Regs) :
    ConfigureTimer fl32 3 [TIMER_0, DELAY_MODE, 6] s =
      some ⟨0, { s with TCCR0A := 2, TCCR0B := 5, TIMSK0 := 2, OCR0A := 93 }, some 1024⟩ := by
  rw [ConfigureTimer_delay_timer0 _ _ _ _ _ (by decide), compareValue_fl32_6_1024_255]
  rfl

/-- Timer 2 with a delay of 1 ms in binary32 arithmetic: the branch of divisor
64, clock-select bits 011, compare value 249. -/
theorem timer2_delay_1 (s : Regs) :
    ConfigureTimer fl32 3 [TIMER_2, DELAY_MODE, 1] s =
      some ⟨0, { s with TCCR2A := 2, TCCR2B := 3, TIMSK2 := 2, OCR2A := 249 }, some 64⟩ := by
  rw [ConfigureTimer_delay_timer2 _ _ _ _ _ (by decide), compareValue_fl32_1_64_255]
  rfl

/-- The call made by `main`, `ConfigureTimer(3, TIMER_1, DELAY_MODE, 1000)`, in
binary32 arithmetic: the branch of divisor 256, and 62499 in `OCR1A` (the exact
tick count is 62500). -/
theorem main_call_selects_256 (s : Regs) :
    ConfigureTimer fl32 3 [TIMER_1, DELAY_MODE, 1000] s =
      some ⟨0, { s with TCCR1A := 0, TCCR1B := 12, TIMSK1 := 2, OCR1A := 62499 }, some 256⟩ := by
  rw [ConfigureTimer_delay_timer1 _ _ _ _ _ (by decide), compareValue_fl32_1000_256_65535]
  rfl

/-- The call made by `main` in exact arithmetic: divisor 256 and 62500 in `OCR1A`. -/
theorem main_call_exact (s : Regs) :
    ConfigureTimer id 3 [TIMER_1, DELAY_MODE, 1000] s =
      some ⟨0, { s with TCCR1A := 0, TCCR1B := 12, TIMSK1 := 2, OCR1A := 62500 }, some 256⟩ := by
  rw [ConfigureTimer_delay_timer1 _ _ _ _ _ (by decide),
    compareValue_eq id (fun _ => rfl) 1000 256 0xFFFF (by decide) (by decide) (by decide)]
  rfl

/-- In exact arithmetic, for a non-negative delay, the compare value of the
code is the floor of the specification's quotient `d / maxDelay * counterMax`. -/
theorem compareValue_eq_floor (fl : ℚ → ℚ) (hex : ∀ x, fl x = x) (timer d : Int) (p : Nat)
    (hd : 0 ≤ d) :
    compareValue fl d p (counterMax timer) =
      ⌊(d : ℚ) / maxDelay timer p * (counterMax timer : ℚ)⌋ := by
  have hq : compareDouble fl d p (counterMax timer)
      = (d : ℚ) / maxDelay timer p * (counterMax timer : ℚ) := by
    simp only [compareDouble, hex]
    unfold maxDelay F_CPU
    congr 2
    ring
  have hnn : (0 : ℚ) ≤ (d : ℚ) / maxDelay timer p * (counterMax timer : ℚ) := by
    have hd' : (0 : ℚ) ≤ (d : ℚ) := by exact_mod_cast hd
    unfold maxDelay
    positivity
  unfold compareValue
  rw [hq, cTrunc_of_nonneg _ hnn]

/-- The specification's quotient `d / maxDelay * counterMax` is the exact tick
count `16000 * d / p`. -/
theorem quotient_eq_ticks (timer d : Int) (p : Nat) (hp : 0 < p) :
    (d : ℚ) / maxDelay timer p * (counterMax timer : ℚ) = 16000 * (d : ℚ) / (p : ℚ) := by
  have hM : (0 : ℚ) < (counterMax timer : ℚ) := by
    unfold counterMax
    split_ifs <;> norm_num
  have hP : (0 : ℚ) < (p : ℚ) := by exact_mod_cast hp
  unfold maxDelay
  field_simp
  ring

/-! ## The claims -/

/-- C1: for each of the three units and every integer delay `d` with
`0 < d ≤ maxDelay unit 1024`, `ConfigureTimer` in `DELAY_MODE` returns 0 and the
divisor `p` of the branch it takes is the smallest allowed divisor of the unit
with `d ≤ maxDelay unit p`. The branch is the one whose writes are found in the
registers afterwards: the clock-select bits are the pattern that the source
writes for `p` (001 for 1, 010 for 8, 011 for 64, 100 for 256, 101 for 1024),
which on Timer 0 and Timer 1 selects `p` in hardware, and the compare register
holds the value of the compare-value formula with factor `p`. -/
theorem C1_smallest_fitting_divisor (fl : ℚ → ℚ) (numArgs timer d : Int) (rest : List Int)
    (s : Regs) (ht : timer = TIMER_0 ∨ timer = TIMER_1 ∨ timer = TIMER_2)
    (hpos : 0 < d) (hmax : (d : ℚ) ≤ maxDelay timer 1024) :
    ∃ regs p, ConfigureTimer fl numArgs (timer :: DELAY_MODE :: d :: rest) s
        = some ⟨0, regs, some p⟩
      ∧ p ∈ allowedDivisors timer ∧ (d : ℚ) ≤ maxDelay timer p
      ∧ (∀ q ∈ allowedDivisors timer, (d : ℚ) ≤ maxDelay timer q → p ≤ q)
      ∧ ((p = 1 ∧ clockSelectBits (controlB timer regs) = 1) ∨
         (p = 8 ∧ clockSelectBits (controlB timer regs) = 2) ∨
         (p = 64 ∧ clockSelectBits (controlB timer regs) = 3) ∨
         (p = 256 ∧ clockSelectBits (controlB timer regs) = 4) ∨
         (p = 1024 ∧ clockSelectBits (controlB timer regs) = 5))
      ∧ (timer ≠ TIMER_2 →
          clockSelectDivisor timer (clockSelectBits (controlB timer regs)) = some p)
      ∧ compareReg timer regs =
          (if timer = TIMER_1 then store16 (compareValue fl d p 65535)
           else store8 (compareValue fl d p 255)) := by
  rcases ht with rfl | rfl | rfl
  · obtain ⟨e1, e2, e3⟩ := le_maxDelay_timer0 d
    rw [e3] at hmax
    rw [ConfigureTimer_delay_timer0 _ _ _ _ _ hpos]
    have hne : TIMER_0 ≠ TIMER_1 := by decide
    split_ifs <;> refine ⟨_, _, rfl, ?_, ?_, ?_, ?_, ?_, ?_⟩ <;>
      first
      | (simp [allowedDivisors, hne, e1, e2, e3] <;> omega)
      | simp [controlB, compareReg, clockSelectBits, clockSelectDivisor, TIMER_0, TIMER_1,
          TIMER_2]
  · obtain ⟨e1, e2, e3, e4, e5⟩ := le_maxDelay_timer1 d
    rw [e5] at hmax
    rw [ConfigureTimer_delay_timer1 _ _ _ _ _ hpos]
    split_ifs <;> refine ⟨_, _, rfl, ?_, ?_, ?_, ?_, ?_, ?_⟩ <;>
      first
      | exact absurd (rfl : TIMER_1 = TIMER_1) (by assumption)
      | (simp [allowedDivisors, e1, e2, e3, e4, e5] <;> omega)
      | simp [controlB, compareReg, clockSelectBits, clockSelectDivisor, TIMER_0, TIMER_1,
          TIMER_2]
  · obtain ⟨e1, e2, e3⟩ := le_maxDelay_timer2 d
    rw [e3] at hmax
    rw [ConfigureTimer_delay_timer2 _ _ _ _ _ hpos]
    have hne : TIMER_2 ≠ TIMER_1 := by decide
    split_ifs <;> refine ⟨_, _, rfl, ?_, ?_, ?_, ?_, ?_, ?_⟩ <;>
      first
      | (simp [allowedDivisors, hne, e1, e2, e3] <;> omega)
      | simp [controlB, compareReg, clockSelectBits, clockSelectDivisor, TIMER_0, TIMER_1,
          TIMER_2]

/-- C1, at the call made by `main` in binary32 arithmetic: Timer 1 with a delay
of 1000 ms succeeds. -/
theorem C1_smallest_fitting_divisor_witness :
    (TIMER_1 = TIMER_0 ∨ TIMER_1 = TIMER_1 ∨ TIMER_1 = TIMER_2) ∧ (0 : Int) < 1000 ∧
    (((1000 : Int) : ℚ) ≤ maxDelay TIMER_1 1024) ∧
    ∃ regs p, ConfigureTimer fl32 3 (TIMER_1 :: DELAY_MODE :: 1000 :: []) powerUp
        = some ⟨0, regs, some p⟩
      ∧ p ∈ allowedDivisors TIMER_1 ∧ ((1000 : Int) : ℚ) ≤ maxDelay TIMER_1 p
      ∧ (∀ q ∈ allowedDivisors TIMER_1, ((1000 : Int) : ℚ) ≤ maxDelay TIMER_1 q → p ≤ q)
      ∧ ((p = 1 ∧ clockSelectBits (controlB TIMER_1 regs) = 1) ∨
         (p = 8 ∧ clockSelectBits (controlB TIMER_1 regs) = 2) ∨
         (p = 64 ∧ clockSelectBits (controlB TIMER_1 regs) = 3) ∨
         (p = 256 ∧ clockSelectBits (controlB TIMER_1 regs) = 4) ∨
         (p = 1024 ∧ clockSelectBits (controlB TIMER_1 regs) = 5))
      ∧ (TIMER_1 ≠ TIMER_2 →
          clockSelectDivisor TIMER_1 (clockSelectBits (controlB TIMER_1 regs)) = some p)
      ∧ compareReg TIMER_1 regs =
          (if TIMER_1 = TIMER_1 then store16 (compareValue fl32 1000 p 65535)
           else store8 (compareValue fl32 1000 p 255)) :=
  ⟨Or.inr (Or.inl rfl), by decide, by norm_num [maxDelay, counterMax, TIMER_1],
    C1_smallest_fitting_divisor fl32 3 TIMER_1 1000 [] powerUp (Or.inr (Or.inl rfl)) (by decide)
      (by norm_num [maxDelay, counterMax, TIMER_1])⟩

/-- C2: whenever `ConfigureTimer` in `DELAY_MODE` returns 0, the value `v` that
the compare-value formula of the branch taken yields, in exact arithmetic and
in every `double` arithmetic with relative error at most `2^-24` per operation
(binary32, binary64), satisfies `0 < v ≤ counterMax`, and the unit's compare
register holds exactly `v`; so a successful call never writes 0. -/
theorem C2_compare_value_in_range (fl : ℚ → ℚ) (hfl : AccurateRounding fl)
    (numArgs timer d : Int) (rest : List Int) (s : Regs)
    (r : Outcome) (ht : timer = TIMER_0 ∨ timer = TIMER_1 ∨ timer = TIMER_2)
    (hcall : ConfigureTimer fl numArgs (timer :: DELAY_MODE :: d :: rest) s = some r)
    (hret : r.ret = 0) :
    ∃ p, r.prescaler = some p ∧
      0 < compareValue fl d p (counterMax timer) ∧
      compareValue fl d p (counterMax timer) ≤ (counterMax timer : Int) ∧
      (compareReg timer r.regs : Int) = compareValue fl d p (counterMax timer) ∧
      0 < compareReg timer r.regs ∧ compareReg timer r.regs ≤ counterMax timer := by
  obtain ⟨p, hp, _, _, h0, h1, h2, _, _⟩ :=
    success_compare_value fl hfl numArgs timer d rest s r ht hcall hret
  refine ⟨p, hp, h0, h1, h2, ?_, ?_⟩
  · have : (0 : Int) < (compareReg timer r.regs : Int) := by rw [h2]; exact h0
    exact_mod_cast this
  · have : (compareReg timer r.regs : Int) ≤ (counterMax timer : Int) := by rw [h2]; exact h1
    exact_mod_cast this

/-- C2 at Timer 0 with a delay of 1 ms in binary32 arithmetic (divisor 64,
compare value 249). -/
theorem C2_compare_value_in_range_witness :
    AccurateRounding fl32 ∧
    (TIMER_0 = TIMER_0 ∨ TIMER_0 = TIMER_1 ∨ TIMER_0 = TIMER_2) ∧
    ∃ r, ConfigureTimer fl32 3 [TIMER_0, DELAY_MODE, 1] powerUp = some r ∧ r.ret = 0 ∧
      ∃ p, r.prescaler = some p ∧
        0 < compareValue fl32 1 p (counterMax TIMER_0) ∧
        compareValue fl32 1 p (counterMax TIMER_0) ≤ (counterMax TIMER_0 : Int) ∧
        (compareReg TIMER_0 r.regs : Int) = compareValue fl32 1 p (counterMax TIMER_0) ∧
        0 < compareReg TIMER_0 r.regs ∧ compareReg TIMER_0 r.regs ≤ counterMax TIMER_0 :=
  ⟨fl32_accurate, Or.inl rfl, _, timer0_delay_1 powerUp, rfl,
    C2_compare_value_in_range fl32 fl32_accurate 3 TIMER_0 1 [] powerUp _ (Or.inl rfl)
      (timer0_delay_1 powerUp) rfl⟩

/-- C3 (as stated) fails: Timer 0 with a delay of 6 ms takes the branch of
divisor 1024, where the quotient `d / maxDelay * counterMax` is 93.75; its
nearest integer is 94, but the compare register receives 93 (in binary32 as in
exact arithmetic). -/
theorem C3_rounded_ratio_counterexample :
    ∃ r, ConfigureTimer fl32 3 [TIMER_0, DELAY_MODE, 6] powerUp = some r ∧ r.ret = 0 ∧
      r.prescaler = some 1024 ∧
      ((6 : Int) : ℚ) / maxDelay TIMER_0 1024 * (counterMax TIMER_0 : ℚ) = 375 / 4 ∧
      roundedCompareValue TIMER_0 6 1024 = 94 ∧
      (compareReg TIMER_0 r.regs : Int) = 93 ∧
      (compareReg TIMER_0 r.regs : Int) ≠ roundedCompareValue TIMER_0 6 1024 := by
  have hq : ((6 : Int) : ℚ) / maxDelay TIMER_0 1024 * (counterMax TIMER_0 : ℚ) = 375 / 4 := by
    norm_num [maxDelay, counterMax, TIMER_0, TIMER_1]
  have hr : roundedCompareValue TIMER_0 6 1024 = 94 := by
    unfold roundedCompareValue
    rw [hq, round_eq, Int.floor_eq_iff]
    norm_num
  refine ⟨_, timer0_delay_6 powerUp, rfl, rfl, hq, hr, by decide, ?_⟩
  rw [hr]
  decide

/-- C3 (amended): whenever `ConfigureTimer` in `DELAY_MODE` returns 0 with
selected divisor `p`, the compare register holds the quotient
`q = d / maxDelay unit p * counterMax unit` as the formula computes it in
`double` arithmetic, truncated by the `(int)` cast and not rounded to the
nearest integer: with relative error at most `2^-24` per operation it lies in
`(q - 1 - 1/32, q + 1/32]`, and in exact arithmetic it is the floor of `q`. -/
theorem C3_truncated_ratio (fl : ℚ → ℚ) (hfl : AccurateRounding fl) (numArgs timer d : Int)
    (rest : List Int) (s : Regs)
    (r : Outcome) (ht : timer = TIMER_0 ∨ timer = TIMER_1 ∨ timer = TIMER_2)
    (hcall : ConfigureTimer fl numArgs (timer :: DELAY_MODE :: d :: rest) s = some r)
    (hret : r.ret = 0) :
    ∃ p, r.prescaler = some p ∧
      (compareReg timer r.regs : Int) = cTrunc (compareDouble fl d p (counterMax timer)) ∧
      (d : ℚ) / maxDelay timer p * (counterMax timer : ℚ) - 1 - 1 / 32
        < (compareReg timer r.regs : ℚ) ∧
      (compareReg timer r.regs : ℚ)
        ≤ (d : ℚ) / maxDelay timer p * (counterMax timer : ℚ) + 1 / 32 ∧
      ((∀ x, fl x = x) → (compareReg timer r.regs : Int) =
        ⌊(d : ℚ) / maxDelay timer p * (counterMax timer : ℚ)⌋) := by
  obtain ⟨p, hp, hp0, hd, _, _, h2, h3, h4⟩ :=
    success_compare_value fl hfl numArgs timer d rest s r ht hcall hret
  have hPq : (0 : ℚ) < (p : ℚ) := by exact_mod_cast hp0
  have hregq : (compareReg timer r.regs : ℚ) = ((compareValue fl d p (counterMax timer) : Int) : ℚ) := by
    exact_mod_cast h2
  have h3q : (32 : ℚ) * (compareValue fl d p (counterMax timer) : Int) * (p : ℚ)
      ≤ 32 * (16000 * (d : ℚ)) + (p : ℚ) := by exact_mod_cast h3
  have h4q : (32 : ℚ) * (16000 * (d : ℚ))
      < (32 * ((compareValue fl d p (counterMax timer) : Int) : ℚ) + 33) * (p : ℚ) := by
    exact_mod_cast h4
  have hE : 16000 * (d : ℚ) / (p : ℚ) * (p : ℚ) = 16000 * (d : ℚ) := by field_simp
  refine ⟨p, hp, h2, ?_, ?_, ?_⟩
  · rw [quotient_eq_ticks timer d p hp0, hregq]
    by_contra hcon
    push_neg at hcon
    have := mul_le_mul_of_nonneg_right hcon (le_of_lt hPq)
    rw [sub_mul, sub_mul, hE] at this
    linarith
  · rw [quotient_eq_ticks timer d p hp0, hregq]
    by_contra hcon
    push_neg at hcon
    have := mul_lt_mul_of_pos_right hcon hPq
    rw [add_mul, hE] at this
    linarith
  · intro hex
    rw [h2, compareValue_eq_floor fl hex timer d p (by omega)]

/-- C3 (amended) at Timer 0 with a delay of 6 ms in binary32 arithmetic: the
register holds 93, within the stated distance of 93.75. -/
theorem C3_truncated_ratio_witness :
    AccurateRounding fl32 ∧
    (TIMER_0 = TIMER_0 ∨ TIMER_0 = TIMER_1 ∨ TIMER_0 = TIMER_2) ∧
    ∃ r, ConfigureTimer fl32 3 [TIMER_0, DELAY_MODE, 6] powerUp = some r ∧ r.ret = 0 ∧
      ∃ p, r.prescaler = some p ∧
        (compareReg TIMER_0 r.regs : Int) = cTrunc (compareDouble fl32 6 p (counterMax TIMER_0)) ∧
        ((6 : Int) : ℚ) / maxDelay TIMER_0 p * (counterMax TIMER_0 : ℚ) - 1 - 1 / 32
          < (compareReg TIMER_0 r.regs : ℚ) ∧
        (compareReg TIMER_0 r.regs : ℚ)
          ≤ ((6 : Int) : ℚ) / maxDelay TIMER_0 p * (counterMax TIMER_0 : ℚ) + 1 / 32 ∧
        ((∀ x, fl32 x = x) → (compareReg TIMER_0 r.regs : Int) =
          ⌊((6 : Int) : ℚ) / maxDelay TIMER_0 p * (counterMax TIMER_0 : ℚ)⌋) :=
  ⟨fl32_accurate, Or.inl rfl, _, timer0_delay_6 powerUp, rfl,
    C3_truncated_ratio fl32 fl32_accurate 3 TIMER_0 6 [] powerUp _ (Or.inl rfl)
      (timer0_delay_6 powerUp) rfl⟩

/-- C4 fails on Timer 2: a delay of 1 ms takes the branch whose compare-value
formula uses divisor 64, yet the clock-select bits written to `TCCR2B` are 011,
which on Timer 2 select divisor 32. -/
theorem C4_timer2_clock_select_mismatch (s : Regs) :
    ∃ r, ConfigureTimer fl32 3 [TIMER_2, DELAY_MODE, 1] s = some r ∧ r.ret = 0 ∧
      r.prescaler = some 64 ∧
      clockSelectBits (controlB TIMER_2 r.regs) = 3 ∧
      clockSelectDivisor TIMER_2 (clockSelectBits (controlB TIMER_2 r.regs)) = some 32 ∧
      clockSelectDivisor TIMER_2 (clockSelectBits (controlB TIMER_2 r.regs)) ≠ r.prescaler := by
  refine ⟨_, timer2_delay_1 s, rfl, rfl, ?_, ?_, ?_⟩ <;>
    simp [controlB, clockSelectBits, clockSelectDivisor, TIMER_0, TIMER_1, TIMER_2]

/-- On Timer 0 and Timer 1 the clock-select bits written by a successful
`DELAY_MODE` call do select the divisor of the compare-value formula. -/
theorem clock_select_matches_timer0_timer1 (fl : ℚ → ℚ) (numArgs timer d : Int) (rest : List Int)
    (s : Regs) (r : Outcome) (ht : timer = TIMER_0 ∨ timer = TIMER_1)
    (hcall : ConfigureTimer fl numArgs (timer :: DELAY_MODE :: d :: rest) s = some r)
    (hret : r.ret = 0) :
    clockSelectDivisor timer (clockSelectBits (controlB timer r.regs)) = r.prescaler := by
  have hpos := delay_pos_of_success fl numArgs timer d rest s r hcall hret
  rcases ht with rfl | rfl
  · rw [ConfigureTimer_delay_timer0 _ _ _ _ _ hpos] at hcall
    split_ifs at hcall <;> cases hcall <;>
      simp_all [controlB, clockSelectBits, clockSelectDivisor, TIMER_0, TIMER_1, TIMER_2,
        ERR_INVALID_DELAY_TIME]
  · rw [ConfigureTimer_delay_timer1 _ _ _ _ _ hpos] at hcall
    split_ifs at hcall <;> cases hcall <;>
      simp_all [controlB, clockSelectBits, clockSelectDivisor, TIMER_0, TIMER_1, TIMER_2,
        ERR_INVALID_DELAY_TIME]

/-- On Timer 2 every successful `DELAY_MODE` call writes clock-select bits that
select a smaller divisor than the one of the compare-value formula
(32, 64, 128 for 64, 256, 1024). -/
theorem clock_select_differs_timer2 (fl : ℚ → ℚ) (numArgs d : Int) (rest : List Int)
    (s : Regs) (r : Outcome)
    (hcall : ConfigureTimer fl numArgs (TIMER_2 :: DELAY_MODE :: d :: rest) s = some r)
    (hret : r.ret = 0) :
    clockSelectDivisor TIMER_2 (clockSelectBits (controlB TIMER_2 r.regs)) ≠ r.prescaler := by
  have hpos := delay_pos_of_success fl numArgs TIMER_2 d rest s r hcall hret
  rw [ConfigureTimer_delay_timer2 _ _ _ _ _ hpos] at hcall
  split_ifs at hcall <;> cases hcall <;>
    simp_all [controlB, clockSelectBits, clockSelectDivisor, TIMER_0, TIMER_1, TIMER_2,
      ERR_INVALID_DELAY_TIME]


/-- C5: after a successful `DELAY_MODE` call the unit's registers hold the
mode-fixed bits and the clock-select bits only (Timer 0: `TCCR0A = WGM01`,
`TCCR0B` within bits 2..0, `TIMSK0 = OCIE0A`; Timer 1: `TCCR1A = 0`,
`TCCR1B = WGM12` plus bits 2..0, `TIMSK1 = OCIE1A`; Timer 2: `TCCR2A = WGM21`,
`TCCR2B` within bits 2..0, `TIMSK2 = OCIE2A`), and they are the same from every
prior register state. -/
theorem C5_clean_slate (fl : ℚ → ℚ) (numArgs timer d : Int) (rest : List Int) (s : Regs) (r : Outcome)
    (ht : timer = TIMER_0 ∨ timer = TIMER_1 ∨ timer = TIMER_2)
    (hcall : ConfigureTimer fl numArgs (timer :: DELAY_MODE :: d :: rest) s = some r)
    (hret : r.ret = 0) :
    (timer = TIMER_0 → r.regs.TCCR0A = _BV WGM01 ∧
        r.regs.TCCR0B = clockSelectBits r.regs.TCCR0B ∧ r.regs.TIMSK0 = _BV OCIE0A) ∧
    (timer = TIMER_1 → r.regs.TCCR1A = 0 ∧
        r.regs.TCCR1B = _BV WGM12 ||| clockSelectBits r.regs.TCCR1B ∧
        r.regs.TIMSK1 = _BV OCIE1A) ∧
    (timer = TIMER_2 → r.regs.TCCR2A = _BV WGM21 ∧
        r.regs.TCCR2B = clockSelectBits r.regs.TCCR2B ∧ r.regs.TIMSK2 = _BV OCIE2A) ∧
    (∀ s' : Regs, ∃ r', ConfigureTimer fl numArgs (timer :: DELAY_MODE :: d :: rest) s' = some r' ∧
        r'.ret = 0 ∧ controlA timer r'.regs = controlA timer r.regs ∧
        controlB timer r'.regs = controlB timer r.regs ∧
        intMask timer r'.regs = intMask timer r.regs) := by
  have hpos := delay_pos_of_success fl numArgs timer d rest s r hcall hret
  have h01 : TIMER_0 ≠ TIMER_1 := by decide
  have h02 : TIMER_0 ≠ TIMER_2 := by decide
  have h12 : TIMER_1 ≠ TIMER_2 := by decide
  rcases ht with rfl | rfl | rfl
  · rw [ConfigureTimer_delay_timer0 _ _ _ _ _ hpos] at hcall
    refine ⟨fun _ => ?_, fun h => absurd h h01, fun h => absurd h h02, fun s' => ?_⟩
    · split_ifs at hcall <;> cases hcall <;>
        first
        | (exfalso; simp [ERR_INVALID_DELAY_TIME] at hret; done)
        | simp [clockSelectBits, _BV, WGM01, WGM12, WGM21, OCIE0A, OCIE1A, OCIE2A]
    · rw [ConfigureTimer_delay_timer0 _ _ _ _ _ hpos]
      split_ifs at hcall ⊢ <;> cases hcall <;>
        first
        | (exfalso; simp [ERR_INVALID_DELAY_TIME] at hret; done)
        | (exfalso; omega)
        | exact ⟨_, rfl, rfl, by simp [controlA, controlB, intMask, TIMER_0, TIMER_1, TIMER_2]⟩
  · rw [ConfigureTimer_delay_timer1 _ _ _ _ _ hpos] at hcall
    refine ⟨fun h => absurd h.symm h01, fun _ => ?_, fun h => absurd h h12, fun s' => ?_⟩
    · split_ifs at hcall <;> cases hcall <;>
        first
        | (exfalso; simp [ERR_INVALID_DELAY_TIME] at hret; done)
        | simp [clockSelectBits, _BV, WGM01, WGM12, WGM21, OCIE0A, OCIE1A, OCIE2A]
    · rw [ConfigureTimer_delay_timer1 _ _ _ _ _ hpos]
      split_ifs at hcall ⊢ <;> cases hcall <;>
        first
        | (exfalso; simp [ERR_INVALID_DELAY_TIME] at hret; done)
        | (exfalso; omega)
        | exact ⟨_, rfl, rfl, by simp [controlA, controlB, intMask, TIMER_0, TIMER_1, TIMER_2]⟩
  · rw [ConfigureTimer_delay_timer2 _ _ _ _ _ hpos] at hcall
    refine ⟨fun h => absurd h.symm h02, fun h => absurd h.symm h12, fun _ => ?_, fun s' => ?_⟩
    · split_ifs at hcall <;> cases hcall <;>
        first
        | (exfalso; simp [ERR_INVALID_DELAY_TIME] at hret; done)
        | simp [clockSelectBits, _BV, WGM01, WGM12, WGM21, OCIE0A, OCIE1A, OCIE2A]
    · rw [ConfigureTimer_delay_timer2 _ _ _ _ _ hpos]
      split_ifs at hcall ⊢ <;> cases hcall <;>
        first
        | (exfalso; simp [ERR_INVALID_DELAY_TIME] at hret; done)
        | (exfalso; omega)
        | exact ⟨_, rfl, rfl, by simp [controlA, controlB, intMask, TIMER_0, TIMER_1, TIMER_2]⟩


/-- C5 at the call made by `main`, starting from a register file in which
Timer 1 is idle: Timer 1 with a delay of 1000 ms. -/
theorem C5_clean_slate_witness :
    (TIMER_1 = TIMER_0 ∨ TIMER_1 = TIMER_1 ∨ TIMER_1 = TIMER_2) ∧
    ∃ r, ConfigureTimer fl32 3 [TIMER_1, DELAY_MODE, 1000] runningTimer0 = some r ∧ r.ret = 0 ∧
    (TIMER_1 = TIMER_0 → r.regs.TCCR0A = _BV WGM01 ∧
        r.regs.TCCR0B = clockSelectBits r.regs.TCCR0B ∧ r.regs.TIMSK0 = _BV OCIE0A) ∧
    (TIMER_1 = TIMER_1 → r.regs.TCCR1A = 0 ∧
        r.regs.TCCR1B = _BV WGM12 ||| clockSelectBits r.regs.TCCR1B ∧
        r.regs.TIMSK1 = _BV OCIE1A) ∧
    (TIMER_1 = TIMER_2 → r.regs.TCCR2A = _BV WGM21 ∧
        r.regs.TCCR2B = clockSelectBits r.regs.TCCR2B ∧ r.regs.TIMSK2 = _BV OCIE2A) ∧
    (∀ s' : Regs, ∃ r', ConfigureTimer fl32 3 (TIMER_1 :: DELAY_MODE :: 1000 :: []) s' = some r' ∧
        r'.ret = 0 ∧ controlA TIMER_1 r'.regs = controlA TIMER_1 r.regs ∧
        controlB TIMER_1 r'.regs = controlB TIMER_1 r.regs ∧
        intMask TIMER_1 r'.regs = intMask TIMER_1 r.regs) :=
  ⟨Or.inr (Or.inl rfl), _, main_call_selects_256 runningTimer0, rfl,
    C5_clean_slate fl32 3 TIMER_1 1000 [] runningTimer0 _ (Or.inr (Or.inl rfl))
      (main_call_selects_256 runningTimer0) rfl⟩

/-- C6: on each of the three units a delay above `maxDelay unit 1024` (that is,
at least 17 ms on Timer 0 and Timer 2, at least 4195 ms on Timer 1) makes
`ConfigureTimer` in `DELAY_MODE` return `ERR_INVALID_DELAY_TIME`, and afterwards
`TCCRnA`, `TCCRnB` and `TIMSKn` of the unit are zero: the register file is the
one `ResetTimer` produces from the prior state. -/
theorem C6_over_range_rejected (fl : ℚ → ℚ) (numArgs timer d : Int) (rest : List Int) (s : Regs)
    (ht : timer = TIMER_0 ∨ timer = TIMER_1 ∨ timer = TIMER_2)
    (hd : maxDelay timer 1024 < (d : ℚ)) :
    (if timer = TIMER_1 then 4195 ≤ d else 17 ≤ d) ∧
    ∃ r, ConfigureTimer fl numArgs (timer :: DELAY_MODE :: d :: rest) s = some r ∧
      r.ret = ERR_INVALID_DELAY_TIME ∧
      controlA timer r.regs = 0 ∧ controlB timer r.regs = 0 ∧ intMask timer r.regs = 0 ∧
      r.regs = (ResetTimer timer s).2 := by
  rcases ht with rfl | rfl | rfl
  · obtain ⟨_, _, e3⟩ := le_maxDelay_timer0 d
    have h16 : ¬ d ≤ 16 := fun h => absurd (e3.mpr h) (not_le.mpr hd)
    have hpos : 0 < d := by omega
    have h1 : ¬ d ≤ 1 := by omega
    have h4 : ¬ d ≤ 4 := by omega
    rw [ConfigureTimer_delay_timer0 _ _ _ _ _ hpos, if_neg h1, if_neg h4, if_neg h16]
    refine ⟨?_, _, rfl, rfl, ?_⟩
    · simp [TIMER_0, TIMER_1]; omega
    · simp [controlA, controlB, intMask, ResetTimer, TIMER_0, TIMER_1, TIMER_2]
  · obtain ⟨_, _, _, _, e5⟩ := le_maxDelay_timer1 d
    have h16 : ¬ d ≤ 4194 := fun h => absurd (e5.mpr h) (not_le.mpr hd)
    have hpos : 0 < d := by omega
    have h4 : ¬ d ≤ 4 := by omega
    have h32 : ¬ d ≤ 32 := by omega
    have h262 : ¬ d ≤ 262 := by omega
    have h1048 : ¬ d ≤ 1048 := by omega
    rw [ConfigureTimer_delay_timer1 _ _ _ _ _ hpos, if_neg h4, if_neg h32, if_neg h262,
      if_neg h1048, if_neg h16]
    refine ⟨?_, _, rfl, rfl, ?_⟩
    · simp [TIMER_1]; omega
    · simp [controlA, controlB, intMask, ResetTimer, TIMER_0, TIMER_1, TIMER_2]
  · obtain ⟨_, _, e3⟩ := le_maxDelay_timer2 d
    have h16 : ¬ d ≤ 16 := fun h => absurd (e3.mpr h) (not_le.mpr hd)
    have hpos : 0 < d := by omega
    have h1 : ¬ d ≤ 1 := by omega
    have h4 : ¬ d ≤ 4 := by omega
    rw [ConfigureTimer_delay_timer2 _ _ _ _ _ hpos, if_neg h1, if_neg h4, if_neg h16]
    refine ⟨?_, _, rfl, rfl, ?_⟩
    · simp [TIMER_2, TIMER_1]; omega
    · simp [controlA, controlB, intMask, ResetTimer, TIMER_0, TIMER_1, TIMER_2]

/-- C6 at Timer 0, running, asked for 17 ms. -/
theorem C6_over_range_rejected_witness :
    (TIMER_0 = TIMER_0 ∨ TIMER_0 = TIMER_1 ∨ TIMER_0 = TIMER_2) ∧
    maxDelay TIMER_0 1024 < ((17 : Int) : ℚ) ∧
    (if TIMER_0 = TIMER_1 then (4195 : Int) ≤ 17 else (17 : Int) ≤ 17) ∧
    ∃ r, ConfigureTimer fl32 3 (TIMER_0 :: DELAY_MODE :: 17 :: []) runningTimer0 = some r ∧
      r.ret = ERR_INVALID_DELAY_TIME ∧
      controlA TIMER_0 r.regs = 0 ∧ controlB TIMER_0 r.regs = 0 ∧
      intMask TIMER_0 r.regs = 0 ∧ r.regs = (ResetTimer TIMER_0 runningTimer0).2 :=
  ⟨Or.inl rfl, by norm_num [maxDelay, counterMax, TIMER_0, TIMER_1],
    C6_over_range_rejected fl32 3 TIMER_0 17 [] runningTimer0 (Or.inl rfl)
      (by norm_num [maxDelay, counterMax, TIMER_0, TIMER_1])⟩

/-- C7: for every timer identifier, valid or not, a delay `d ≤ 0` makes
`ConfigureTimer` in `DELAY_MODE` return `ERR_INVALID_DELAY_TIME` with every
register as it was before the call. -/
theorem C7_nonpositive_delay_rejected (fl : ℚ → ℚ) (numArgs timer d : Int) (rest : List Int) (s : Regs)
    (hd : d ≤ 0) :
    ∃ r, ConfigureTimer fl numArgs (timer :: DELAY_MODE :: d :: rest) s = some r ∧
      r.ret = ERR_INVALID_DELAY_TIME ∧ r.regs = s :=
  ⟨_, ConfigureTimer_delay_nonpos fl numArgs timer d rest s hd, rfl, rfl⟩

/-- C7 at Timer 0, running, asked for a delay of 0. -/
theorem C7_nonpositive_delay_rejected_witness :
    (0 : Int) ≤ 0 ∧
    ∃ r, ConfigureTimer fl32 3 (TIMER_0 :: DELAY_MODE :: 0 :: []) runningTimer0 = some r ∧
      r.ret = ERR_INVALID_DELAY_TIME ∧ r.regs = runningTimer0 :=
  ⟨by decide, C7_nonpositive_delay_rejected fl32 3 TIMER_0 0 [] runningTimer0 (by decide)⟩

/-- C8 (as stated) fails: with Timer 0 configured and running,
`ConfigureTimer(3, TIMER_0, DELAY_MODE, 0)` returns an error and leaves
`TCCR0A`, `TCCR0B` and `TIMSK0` at their non-zero prior values. -/
theorem C8_failure_reset_counterexample :
    ∃ r, ConfigureTimer fl32 3 [TIMER_0, DELAY_MODE, 0] runningTimer0 = some r ∧
      r.ret = ERR_INVALID_DELAY_TIME ∧ r.ret ≠ 0 ∧
      controlA TIMER_0 r.regs = 2 ∧ controlB TIMER_0 r.regs = 3 ∧ intMask TIMER_0 r.regs = 2 :=
  ⟨_, ConfigureTimer_delay_nonpos fl32 3 TIMER_0 0 [] runningTimer0 (by decide), rfl, by decide,
    by decide, by decide, by decide⟩

/-- C8 (amended): when a `DELAY_MODE` request on one of the three units returns
an error, then for a positive delay the unit's `TCCRnA`, `TCCRnB` and `TIMSKn`
are zero afterwards, and for a delay `d ≤ 0` every register is as it was before
the call. -/
theorem C8_failure_state (fl : ℚ → ℚ) (numArgs timer d : Int) (rest : List Int) (s : Regs) (r : Outcome)
    (ht : timer = TIMER_0 ∨ timer = TIMER_1 ∨ timer = TIMER_2)
    (hcall : ConfigureTimer fl numArgs (timer :: DELAY_MODE :: d :: rest) s = some r)
    (hret : r.ret ≠ 0) :
    (0 < d → controlA timer r.regs = 0 ∧ controlB timer r.regs = 0 ∧
      intMask timer r.regs = 0) ∧
    (d ≤ 0 → r.regs = s) := by
  constructor
  · intro hpos
    rcases ht with rfl | rfl | rfl
    · rw [ConfigureTimer_delay_timer0 _ _ _ _ _ hpos] at hcall
      split_ifs at hcall <;> cases hcall <;>
        first
        | exact absurd rfl hret
        | simp [controlA, controlB, intMask, TIMER_0, TIMER_1, TIMER_2]
    · rw [ConfigureTimer_delay_timer1 _ _ _ _ _ hpos] at hcall
      split_ifs at hcall <;> cases hcall <;>
        first
        | exact absurd rfl hret
        | simp [controlA, controlB, intMask, TIMER_0, TIMER_1, TIMER_2]
    · rw [ConfigureTimer_delay_timer2 _ _ _ _ _ hpos] at hcall
      split_ifs at hcall <;> cases hcall <;>
        first
        | exact absurd rfl hret
        | simp [controlA, controlB, intMask, TIMER_0, TIMER_1, TIMER_2]
  · intro hd
    rw [ConfigureTimer_delay_nonpos _ _ _ _ _ _ hd] at hcall
    cases hcall
    rfl

/-- C8 (amended) at Timer 0, running, asked for 17 ms. -/
theorem C8_failure_state_witness :
    (TIMER_0 = TIMER_0 ∨ TIMER_0 = TIMER_1 ∨ TIMER_0 = TIMER_2) ∧
    ∃ r, ConfigureTimer fl32 3 [TIMER_0, DELAY_MODE, 17] runningTimer0 = some r ∧ r.ret ≠ 0 ∧
      ((0 : Int) < 17 → controlA TIMER_0 r.regs = 0 ∧ controlB TIMER_0 r.regs = 0 ∧
        intMask TIMER_0 r.regs = 0) ∧
      ((17 : Int) ≤ 0 → r.regs = runningTimer0) :=
  ⟨Or.inl rfl, _, timer0_delay_17 runningTimer0, by decide,
    C8_failure_state fl32 3 TIMER_0 17 [] runningTimer0 _ (Or.inl rfl)
      (timer0_delay_17 runningTimer0) (by decide)⟩

/-- C9: for every timer identifier other than `TIMER_0`, `TIMER_1`, `TIMER_2` and
every positive delay, `ConfigureTimer` in `DELAY_MODE` returns
`ERR_INVALID_TIMER` with every register as it was before the call. -/
theorem C9_unknown_timer_rejected (fl : ℚ → ℚ) (numArgs timer d : Int) (rest : List Int) (s : Regs)
    (h0 : timer ≠ TIMER_0) (h1 : timer ≠ TIMER_1) (h2 : timer ≠ TIMER_2) (hd : 0 < d) :
    ∃ r, ConfigureTimer fl numArgs (timer :: DELAY_MODE :: d :: rest) s = some r ∧
      r.ret = ERR_INVALID_TIMER ∧ r.regs = s :=
  ⟨_, ConfigureTimer_delay_unknown fl numArgs timer d rest s hd h0 h1 h2, rfl, rfl⟩

/-- C9 at timer identifier 4 with a delay of 10 ms. -/
theorem C9_unknown_timer_rejected_witness :
    (4 : Int) ≠ TIMER_0 ∧ (4 : Int) ≠ TIMER_1 ∧ (4 : Int) ≠ TIMER_2 ∧ (0 : Int) < 10 ∧
    ∃ r, ConfigureTimer fl32 3 ((4 : Int) :: DELAY_MODE :: 10 :: []) runningTimer0 = some r ∧
      r.ret = ERR_INVALID_TIMER ∧ r.regs = runningTimer0 :=
  ⟨by decide, by decide, by decide, by decide,
    C9_unknown_timer_rejected fl32 3 4 10 [] runningTimer0 (by decide) (by decide) (by decide)
      (by decide)⟩

/-- C10 (as stated) fails: there is no NotImplemented code.
`PHASE_CORRECT_PWM_MODE` on Timer 0 returns 0, the success code, and `CTC_MODE`
and `PHASE_CORRECT_PWM_DC_MODE` return `ERR_INVALID_MODE`. -/
theorem C10_not_implemented_counterexample :
    (∃ r, ConfigureTimer fl32 5 [TIMER_0, PHASE_CORRECT_PWM_MODE, 20, 5, 0] powerUp = some r ∧
      r.ret = 0) ∧
    (∃ r, ConfigureTimer fl32 3 [TIMER_0, CTC_MODE, 100] powerUp = some r ∧
      r.ret = ERR_INVALID_MODE) ∧
    (∃ r, ConfigureTimer fl32 5 [TIMER_0, PHASE_CORRECT_PWM_DC_MODE, 20, 1, 0] powerUp = some r ∧
      r.ret = ERR_INVALID_MODE) :=
  ⟨⟨⟨0, powerUp, none⟩, by decide, rfl⟩, ⟨⟨ERR_INVALID_MODE, powerUp, none⟩, by decide, rfl⟩,
    ⟨⟨ERR_INVALID_MODE, powerUp, none⟩, by decide, rfl⟩⟩

/-- C10 (amended): for every timer identifier (so for each of the three units),
every parameter list and every prior register state, `ConfigureTimer` returns 0
for `PHASE_CORRECT_PWM_MODE` and `ERR_INVALID_MODE` for `CTC_MODE` and for
`PHASE_CORRECT_PWM_DC_MODE`. -/
theorem C10_unfinished_mode_codes (fl : ℚ → ℚ) (numArgs timer : Int) (params : List Int) (s : Regs) :
    (∃ r, ConfigureTimer fl numArgs (timer :: PHASE_CORRECT_PWM_MODE :: params) s = some r ∧
      r.ret = 0) ∧
    (∃ r, ConfigureTimer fl numArgs (timer :: CTC_MODE :: params) s = some r ∧
      r.ret = ERR_INVALID_MODE) ∧
    (∃ r, ConfigureTimer fl numArgs (timer :: PHASE_CORRECT_PWM_DC_MODE :: params) s = some r ∧
      r.ret = ERR_INVALID_MODE) := by
  have h3 : PHASE_CORRECT_PWM_MODE ≠ DELAY_MODE := by decide
  have h2 : CTC_MODE ≠ DELAY_MODE := by decide
  have h2' : CTC_MODE ≠ PHASE_CORRECT_PWM_MODE := by decide
  have h4 : PHASE_CORRECT_PWM_DC_MODE ≠ DELAY_MODE := by decide
  have h4' : PHASE_CORRECT_PWM_DC_MODE ≠ PHASE_CORRECT_PWM_MODE := by decide
  refine ⟨⟨⟨0, s, none⟩, ?_, rfl⟩, ⟨⟨ERR_INVALID_MODE, s, none⟩, ?_, rfl⟩,
    ⟨⟨ERR_INVALID_MODE, s, none⟩, ?_, rfl⟩⟩
  · simp only [ConfigureTimer, va_arg, h3, if_false, if_true]
  · simp only [ConfigureTimer, va_arg, h2, h2', if_false]
  · simp only [ConfigureTimer, va_arg, h4, h4', if_false]


/-! ## Claims about modes, arity, `ResetTimer` and `ErrorMessage` -/

/-- A mode other than `DELAY_MODE`: the outcome, with the registers untouched. -/
theorem ConfigureTimer_other_mode (fl : ℚ → ℚ) (numArgs timer mode : Int) (params : List Int) (s : Regs)
    (hm : mode ≠ DELAY_MODE) :
    ConfigureTimer fl numArgs (timer :: mode :: params) s =
      if mode = PHASE_CORRECT_PWM_MODE then some ⟨0, s, none⟩
      else some ⟨ERR_INVALID_MODE, s, none⟩ := by
  simp only [ConfigureTimer, va_arg, hm, if_false]

/-- C11: for every timer identifier, prior register state, parameter list and
mode other than `DELAY_MODE`, `ConfigureTimer` returns with every register as it
was before the call. -/
theorem C11_non_delay_modes_keep_registers (fl : ℚ → ℚ) (numArgs timer mode : Int) (params : List Int)
    (s : Regs) (hm : mode ≠ DELAY_MODE) :
    ∃ r, ConfigureTimer fl numArgs (timer :: mode :: params) s = some r ∧ r.regs = s := by
  rw [ConfigureTimer_other_mode fl numArgs timer mode params s hm]
  split_ifs
  · exact ⟨_, rfl, rfl⟩
  · exact ⟨_, rfl, rfl⟩

/-- C11 at Timer 0, running, asked for `PHASE_CORRECT_PWM_MODE`. -/
theorem C11_non_delay_modes_keep_registers_witness :
    PHASE_CORRECT_PWM_MODE ≠ DELAY_MODE ∧
    ∃ r, ConfigureTimer fl32 5 (TIMER_0 :: PHASE_CORRECT_PWM_MODE :: [20, 5, 0]) runningTimer0 = some r ∧
      r.regs = runningTimer0 :=
  ⟨by decide,
    C11_non_delay_modes_keep_registers fl32 5 TIMER_0 PHASE_CORRECT_PWM_MODE [20, 5, 0] runningTimer0
      (by decide)⟩

/-- C12: for every mode value outside `DELAY_MODE`, `CTC_MODE`,
`PHASE_CORRECT_PWM_MODE`, `PHASE_CORRECT_PWM_DC_MODE`, every timer identifier and
every parameter list, `ConfigureTimer` returns `ERR_INVALID_MODE`. -/
theorem C12_unrecognized_mode_rejected (fl : ℚ → ℚ) (numArgs timer mode : Int) (params : List Int)
    (s : Regs) (h1 : mode ≠ DELAY_MODE) (h2 : mode ≠ CTC_MODE)
    (h3 : mode ≠ PHASE_CORRECT_PWM_MODE) (h4 : mode ≠ PHASE_CORRECT_PWM_DC_MODE) :
    ∃ r, ConfigureTimer fl numArgs (timer :: mode :: params) s = some r ∧
      r.ret = ERR_INVALID_MODE := by
  rw [ConfigureTimer_other_mode fl numArgs timer mode params s h1, if_neg h3]
  exact ⟨_, rfl, rfl⟩

/-- C12 at mode 9 on Timer 1. -/
theorem C12_unrecognized_mode_rejected_witness :
    (9 : Int) ≠ DELAY_MODE ∧ (9 : Int) ≠ CTC_MODE ∧ (9 : Int) ≠ PHASE_CORRECT_PWM_MODE ∧
    (9 : Int) ≠ PHASE_CORRECT_PWM_DC_MODE ∧
    ∃ r, ConfigureTimer fl32 3 (TIMER_1 :: (9 : Int) :: [1000]) powerUp = some r ∧
      r.ret = ERR_INVALID_MODE :=
  ⟨by decide, by decide, by decide, by decide,
    C12_unrecognized_mode_rejected fl32 3 TIMER_1 9 [1000] powerUp (by decide) (by decide)
      (by decide) (by decide)⟩

/-- C13 (as stated) fails: `ConfigureTimer(2, TIMER_1, DELAY_MODE, 1000)` declares
two arguments, yet it returns 0 and configures Timer 1 (registers as written in
binary32 arithmetic). -/
theorem C13_too_few_parameters_counterexample :
    (2 : Int) < 3 ∧
    ∃ r, ConfigureTimer fl32 2 [TIMER_1, DELAY_MODE, 1000] powerUp = some r ∧ r.ret = 0 ∧
      r.regs ≠ powerUp ∧ r.regs.TCCR1B = 12 ∧ r.regs.TIMSK1 = 2 ∧ r.regs.OCR1A = 62499 := by
  refine ⟨by decide, ⟨0, { powerUp with TCCR1A := 0, TCCR1B := 12, TIMSK1 := 2, OCR1A := 62499 },
    some 256⟩, ?_, rfl, by decide, rfl, rfl, rfl⟩
  rw [ConfigureTimer_delay_timer1 _ _ _ _ _ (by decide), compareValue_fl32_1000_256_65535]
  rfl

/-- C13 (amended): `ConfigureTimer` never reads `numArgs`; the outcome of a call
(return code and registers) is the same for every declared argument count. -/
theorem C13_numArgs_is_ignored (fl : ℚ → ℚ) (numArgs numArgs' : Int) (args : List Int) (s : Regs) :
    ConfigureTimer fl numArgs args s = ConfigureTimer fl numArgs' args s := by
  simp only [ConfigureTimer]


/-- C14: for each of the three units `ResetTimer` returns 0, leaves the unit's
`TCCRnA`, `TCCRnB` and `TIMSKn` at zero, and keeps every other register: the
control, clock-select and interrupt-mask registers of the other two units and
all three compare registers. -/
theorem C14_reset_zeroes_named_unit (timer : Int) (s : Regs)
    (ht : timer = TIMER_0 ∨ timer = TIMER_1 ∨ timer = TIMER_2) :
    (ResetTimer timer s).1 = 0 ∧
    controlA timer (ResetTimer timer s).2 = 0 ∧
    controlB timer (ResetTimer timer s).2 = 0 ∧
    intMask timer (ResetTimer timer s).2 = 0 ∧
    (∀ other : Int, (other = TIMER_0 ∨ other = TIMER_1 ∨ other = TIMER_2) → other ≠ timer →
      controlA other (ResetTimer timer s).2 = controlA other s ∧
      controlB other (ResetTimer timer s).2 = controlB other s ∧
      intMask other (ResetTimer timer s).2 = intMask other s) ∧
    (ResetTimer timer s).2.OCR0A = s.OCR0A ∧
    (ResetTimer timer s).2.OCR1A = s.OCR1A ∧
    (ResetTimer timer s).2.OCR2A = s.OCR2A := by
  rcases ht with rfl | rfl | rfl
  · refine ⟨rfl, rfl, rfl, rfl, ?_, rfl, rfl, rfl⟩
    rintro other (rfl | rfl | rfl) hne
    · exact absurd rfl hne
    · simp [controlA, controlB, intMask, ResetTimer, TIMER_0, TIMER_1, TIMER_2]
    · simp [controlA, controlB, intMask, ResetTimer, TIMER_0, TIMER_1, TIMER_2]
  · refine ⟨by simp [ResetTimer, TIMER_0, TIMER_1],
      by simp [controlA, ResetTimer, TIMER_0, TIMER_1],
      by simp [controlB, ResetTimer, TIMER_0, TIMER_1],
      by simp [intMask, ResetTimer, TIMER_0, TIMER_1], ?_,
      by simp [ResetTimer, TIMER_0, TIMER_1], by simp [ResetTimer, TIMER_0, TIMER_1],
      by simp [ResetTimer, TIMER_0, TIMER_1]⟩
    rintro other (rfl | rfl | rfl) hne
    · simp [controlA, controlB, intMask, ResetTimer, TIMER_0, TIMER_1, TIMER_2]
    · exact absurd rfl hne
    · simp [controlA, controlB, intMask, ResetTimer, TIMER_0, TIMER_1, TIMER_2]
  · refine ⟨by simp [ResetTimer, TIMER_0, TIMER_1, TIMER_2],
      by simp [controlA, ResetTimer, TIMER_0, TIMER_1, TIMER_2],
      by simp [controlB, ResetTimer, TIMER_0, TIMER_1, TIMER_2],
      by simp [intMask, ResetTimer, TIMER_0, TIMER_1, TIMER_2], ?_,
      by simp [ResetTimer, TIMER_0, TIMER_1, TIMER_2],
      by simp [ResetTimer, TIMER_0, TIMER_1, TIMER_2],
      by simp [ResetTimer, TIMER_0, TIMER_1, TIMER_2]⟩
    rintro other (rfl | rfl | rfl) hne
    · simp [controlA, controlB, intMask, ResetTimer, TIMER_0, TIMER_1, TIMER_2]
    · simp [controlA, controlB, intMask, ResetTimer, TIMER_0, TIMER_1, TIMER_2]
    · exact absurd rfl hne

/-- C14 at Timer 0, reset while configured and running. -/
theorem C14_reset_zeroes_named_unit_witness :
    (TIMER_0 = TIMER_0 ∨ TIMER_0 = TIMER_1 ∨ TIMER_0 = TIMER_2) ∧
    (ResetTimer TIMER_0 runningTimer0).1 = 0 ∧
    controlA TIMER_0 (ResetTimer TIMER_0 runningTimer0).2 = 0 ∧
    controlB TIMER_0 (ResetTimer TIMER_0 runningTimer0).2 = 0 ∧
    intMask TIMER_0 (ResetTimer TIMER_0 runningTimer0).2 = 0 ∧
    (∀ other : Int, (other = TIMER_0 ∨ other = TIMER_1 ∨ other = TIMER_2) → other ≠ TIMER_0 →
      controlA other (ResetTimer TIMER_0 runningTimer0).2 = controlA other runningTimer0 ∧
      controlB other (ResetTimer TIMER_0 runningTimer0).2 = controlB other runningTimer0 ∧
      intMask other (ResetTimer TIMER_0 runningTimer0).2 = intMask other runningTimer0) ∧
    (ResetTimer TIMER_0 runningTimer0).2.OCR0A = runningTimer0.OCR0A ∧
    (ResetTimer TIMER_0 runningTimer0).2.OCR1A = runningTimer0.OCR1A ∧
    (ResetTimer TIMER_0 runningTimer0).2.OCR2A = runningTimer0.OCR2A :=
  ⟨Or.inl rfl, C14_reset_zeroes_named_unit TIMER_0 runningTimer0 (Or.inl rfl)⟩

/-- C15: `ResetTimer` returns `ERR_INVALID_TIMER` exactly when the identifier is
none of `TIMER_0`, `TIMER_1`, `TIMER_2`, returns 0 otherwise, and when it returns
`ERR_INVALID_TIMER` every register is as it was before. -/
theorem C15_reset_fails_on_unknown (timer : Int) (s : Regs) :
    ((ResetTimer timer s).1 = ERR_INVALID_TIMER ↔
      (timer ≠ TIMER_0 ∧ timer ≠ TIMER_1 ∧ timer ≠ TIMER_2)) ∧
    ((timer = TIMER_0 ∨ timer = TIMER_1 ∨ timer = TIMER_2) → (ResetTimer timer s).1 = 0) ∧
    ((ResetTimer timer s).1 = ERR_INVALID_TIMER → (ResetTimer timer s).2 = s) := by
  unfold ResetTimer
  split_ifs with h0 h1 h2
  · simp [h0, ERR_INVALID_TIMER]
  · simp [h1, ERR_INVALID_TIMER]
  · simp [h2, ERR_INVALID_TIMER]
  · simp [h0, h1, h2]

/-- C16: `ResetTimer` is idempotent: applied to the state it produced, it gives
the same return code and the same state again. -/
theorem C16_reset_idempotent (timer : Int) (s : Regs) :
    ResetTimer timer (ResetTimer timer s).2 = ResetTimer timer s := by
  unfold ResetTimer
  split_ifs <;> rfl


/-- A code that `ErrorMessage` does not recognize gets the fallback description. -/
theorem ErrorMessage_unrecognized (err : Int) (h0 : err ≠ ERR_INVALID_MODE)
    (h1 : err ≠ ERR_INVALID_TIMER_RANGE) (h2 : err ≠ ERR_INVALID_DELAY_TIME) :
    ErrorMessage err = messageForm err fallbackDescription := by
  simp only [ErrorMessage, h0, h1, h2, if_false, messageForm, fallbackDescription,
    String.append_assoc]
  rfl

/-- `ERR_INVALID_MODE` and `ERR_INVALID_DELAY_TIME` have descriptions of their
own, different from each other and from the fallback description. -/
theorem ErrorMessage_mode_and_delay :
    ErrorMessage ERR_INVALID_MODE = messageForm ERR_INVALID_MODE "Invalid mode selected\n" ∧
    ErrorMessage ERR_INVALID_DELAY_TIME =
      messageForm ERR_INVALID_DELAY_TIME
        "Delay time negative or too long for specified timer\n" ∧
    "Invalid mode selected\n" ≠ "Delay time negative or too long for specified timer\n" ∧
    "Invalid mode selected\n" ≠ fallbackDescription ∧
    "Delay time negative or too long for specified timer\n" ≠ fallbackDescription := by
  refine ⟨by decide, by decide, by decide, by decide, by decide⟩

/-- C17 fails for `ERR_INVALID_TIMER`: `ErrorMessage(-103)` is
`"(-103) Unknown Error"`, the code followed by the fallback description, the
same description an unrecognized code such as 7 receives. -/
theorem C17_invalid_timer_gets_fallback :
    ErrorMessage ERR_INVALID_TIMER = "(-103) Unknown Error" ∧
    ErrorMessage ERR_INVALID_TIMER = messageForm ERR_INVALID_TIMER fallbackDescription ∧
    ErrorMessage 7 = messageForm 7 fallbackDescription := by
  refine ⟨by decide, by decide, by decide⟩


/-- C18: on each of the three units `ConfigureTimer` in `DELAY_MODE` returns 0
exactly for `1 ≤ d ≤ 16` (Timer 0, Timer 2) or `1 ≤ d ≤ 4194` (Timer 1) and
`ERR_INVALID_DELAY_TIME` otherwise; and for a positive integer delay the
conditions of the two rejecting branches of the 8-bit units (delay within the
divisor-1 or divisor-8 threshold) are false. -/
theorem C18_exact_success_range (fl : ℚ → ℚ) (numArgs timer d : Int) (rest : List Int) (s : Regs)
    (ht : timer = TIMER_0 ∨ timer = TIMER_1 ∨ timer = TIMER_2) :
    (∃ r, ConfigureTimer fl numArgs (timer :: DELAY_MODE :: d :: rest) s = some r ∧
      (r.ret = 0 ↔ (1 ≤ d ∧ d ≤ (if timer = TIMER_1 then 4194 else 16))) ∧
      (r.ret ≠ 0 → r.ret = ERR_INVALID_DELAY_TIME)) ∧
    (0 < d →
      ¬ (d : ℚ) ≤ TIMER_0_MAX_DELAY_TIME_PS_1 ∧ ¬ (d : ℚ) ≤ TIMER_0_MAX_DELAY_TIME_PS_8 ∧
      ¬ (d : ℚ) ≤ TIMER_2_MAX_DELAY_TIME_PS_1 ∧ ¬ (d : ℚ) ≤ TIMER_2_MAX_DELAY_TIME_PS_8) := by
  constructor
  · by_cases hd : d ≤ 0
    · rw [ConfigureTimer_delay_nonpos _ _ _ _ _ _ hd]
      refine ⟨_, rfl, ?_, fun _ => rfl⟩
      simp only [ERR_INVALID_DELAY_TIME]
      constructor
      · intro h
        exact absurd h (by decide)
      · intro h
        omega
    · have hpos : 0 < d := by omega
      have h01 : TIMER_0 ≠ TIMER_1 := by decide
      have h21 : TIMER_2 ≠ TIMER_1 := by decide
      rcases ht with rfl | rfl | rfl
      · rw [ConfigureTimer_delay_timer0 _ _ _ _ _ hpos]
        split_ifs <;> refine ⟨_, rfl, ?_, ?_⟩ <;>
          simp only [ERR_INVALID_DELAY_TIME, h01, if_false] <;> simp <;> omega
      · rw [ConfigureTimer_delay_timer1 _ _ _ _ _ hpos]
        split_ifs <;> refine ⟨_, rfl, ?_, ?_⟩ <;>
          simp only [ERR_INVALID_DELAY_TIME, if_true] <;> simp <;> omega
      · rw [ConfigureTimer_delay_timer2 _ _ _ _ _ hpos]
        split_ifs <;> refine ⟨_, rfl, ?_, ?_⟩ <;>
          simp only [ERR_INVALID_DELAY_TIME, h21, if_false] <;> simp <;> omega
  · intro hpos
    rw [le_T0_PS_1, le_T0_PS_8, le_T2_PS_1, le_T2_PS_8]
    omega


/-- C18 at Timer 1. -/
theorem C18_exact_success_range_witness :
    (TIMER_1 = TIMER_0 ∨ TIMER_1 = TIMER_1 ∨ TIMER_1 = TIMER_2) ∧
    (∃ r, ConfigureTimer fl32 3 (TIMER_1 :: DELAY_MODE :: 4195 :: []) powerUp = some r ∧
      (r.ret = 0 ↔ ((1 : Int) ≤ 4195 ∧ (4195 : Int) ≤ (if TIMER_1 = TIMER_1 then 4194 else 16))) ∧
      (r.ret ≠ 0 → r.ret = ERR_INVALID_DELAY_TIME)) ∧
    ((0 : Int) < 4195 →
      ¬ ((4195 : Int) : ℚ) ≤ TIMER_0_MAX_DELAY_TIME_PS_1 ∧
      ¬ ((4195 : Int) : ℚ) ≤ TIMER_0_MAX_DELAY_TIME_PS_8 ∧
      ¬ ((4195 : Int) : ℚ) ≤ TIMER_2_MAX_DELAY_TIME_PS_1 ∧
      ¬ ((4195 : Int) : ℚ) ≤ TIMER_2_MAX_DELAY_TIME_PS_8) :=
  ⟨Or.inr (Or.inl rfl),
    C18_exact_success_range fl32 3 TIMER_1 4195 [] powerUp (Or.inr (Or.inl rfl))⟩

/-- C20: every call of `ConfigureTimer` that supplies the arguments its mode
reads returns, and leaves `TCCRnA`, `TCCRnB`, `TIMSKn` and `OCRnA` of every unit
other than the one named by the timer argument as they were, whatever
`numArgs`, the timer identifier, the mode, the parameters and the prior state. -/
theorem C20_other_units_untouched (fl : ℚ → ℚ) (numArgs timer mode : Int) (params : List Int) (s : Regs)
    (hargs : mode = DELAY_MODE → params ≠ []) :
    ∃ r, ConfigureTimer fl numArgs (timer :: mode :: params) s = some r ∧
      (timer ≠ TIMER_0 → r.regs.TCCR0A = s.TCCR0A ∧ r.regs.TCCR0B = s.TCCR0B ∧
        r.regs.TIMSK0 = s.TIMSK0 ∧ r.regs.OCR0A = s.OCR0A) ∧
      (timer ≠ TIMER_1 → r.regs.TCCR1A = s.TCCR1A ∧ r.regs.TCCR1B = s.TCCR1B ∧
        r.regs.TIMSK1 = s.TIMSK1 ∧ r.regs.OCR1A = s.OCR1A) ∧
      (timer ≠ TIMER_2 → r.regs.TCCR2A = s.TCCR2A ∧ r.regs.TCCR2B = s.TCCR2B ∧
        r.regs.TIMSK2 = s.TIMSK2 ∧ r.regs.OCR2A = s.OCR2A) := by
  by_cases hm : mode = DELAY_MODE
  · subst hm
    obtain ⟨d, rest, rfl⟩ := List.exists_cons_of_ne_nil (hargs rfl)
    by_cases hd : d ≤ 0
    · rw [ConfigureTimer_delay_nonpos _ _ _ _ _ _ hd]
      exact ⟨_, rfl, fun _ => ⟨rfl, rfl, rfl, rfl⟩, fun _ => ⟨rfl, rfl, rfl, rfl⟩,
        fun _ => ⟨rfl, rfl, rfl, rfl⟩⟩
    · have hpos : 0 < d := by omega
      by_cases h0 : timer = TIMER_0
      · subst h0
        rw [ConfigureTimer_delay_timer0 _ _ _ _ _ hpos]
        split_ifs <;> exact ⟨_, rfl, fun h => absurd rfl h, fun _ => ⟨rfl, rfl, rfl, rfl⟩,
          fun _ => ⟨rfl, rfl, rfl, rfl⟩⟩
      · by_cases h1 : timer = TIMER_1
        · subst h1
          rw [ConfigureTimer_delay_timer1 _ _ _ _ _ hpos]
          split_ifs <;> exact ⟨_, rfl, fun _ => ⟨rfl, rfl, rfl, rfl⟩, fun h => absurd rfl h,
            fun _ => ⟨rfl, rfl, rfl, rfl⟩⟩
        · by_cases h2 : timer = TIMER_2
          · subst h2
            rw [ConfigureTimer_delay_timer2 _ _ _ _ _ hpos]
            split_ifs <;> exact ⟨_, rfl, fun _ => ⟨rfl, rfl, rfl, rfl⟩,
              fun _ => ⟨rfl, rfl, rfl, rfl⟩, fun h => absurd rfl h⟩
          · rw [ConfigureTimer_delay_unknown _ _ _ _ _ _ hpos h0 h1 h2]
            exact ⟨_, rfl, fun _ => ⟨rfl, rfl, rfl, rfl⟩, fun _ => ⟨rfl, rfl, rfl, rfl⟩,
              fun _ => ⟨rfl, rfl, rfl, rfl⟩⟩
  · rw [ConfigureTimer_other_mode fl numArgs timer mode params s hm]
    split_ifs <;> exact ⟨_, rfl, fun _ => ⟨rfl, rfl, rfl, rfl⟩, fun _ => ⟨rfl, rfl, rfl, rfl⟩,
      fun _ => ⟨rfl, rfl, rfl, rfl⟩⟩

/-- C20 at the call made by `main`, with Timer 0 running: Timer 0 and Timer 2
keep their registers while Timer 1 is configured. -/
theorem C20_other_units_untouched_witness :
    (DELAY_MODE = DELAY_MODE → ([1000] : List Int) ≠ []) ∧
    ∃ r, ConfigureTimer fl32 3 (TIMER_1 :: DELAY_MODE :: [1000]) runningTimer0 = some r ∧
      (TIMER_1 ≠ TIMER_0 → r.regs.TCCR0A = runningTimer0.TCCR0A ∧
        r.regs.TCCR0B = runningTimer0.TCCR0B ∧
        r.regs.TIMSK0 = runningTimer0.TIMSK0 ∧ r.regs.OCR0A = runningTimer0.OCR0A) ∧
      (TIMER_1 ≠ TIMER_1 → r.regs.TCCR1A = runningTimer0.TCCR1A ∧
        r.regs.TCCR1B = runningTimer0.TCCR1B ∧
        r.regs.TIMSK1 = runningTimer0.TIMSK1 ∧ r.regs.OCR1A = runningTimer0.OCR1A) ∧
      (TIMER_1 ≠ TIMER_2 → r.regs.TCCR2A = runningTimer0.TCCR2A ∧
        r.regs.TCCR2B = runningTimer0.TCCR2B ∧
        r.regs.TIMSK2 = runningTimer0.TIMSK2 ∧ r.regs.OCR2A = runningTimer0.OCR2A) :=
  ⟨fun _ => by decide,
    C20_other_units_untouched fl32 3 TIMER_1 DELAY_MODE [1000] runningTimer0 (fun _ => by decide)⟩

end JTimer
